import Mathlib

/-!
# peerswap: the LND on-chain wallet adapter (`lnd/lnd_wallet.go`)

A shallow embedding of the methods of `lnd.Client` that create, verify, sign
and broadcast the opening transaction of a swap and its three spending
transactions, followed by theorems about them.

Every call that leaves `lnd_wallet.go` towards the wallet RPC clients, the
`bitcoinOnChain` helper, a `Signer`, or the `onchain` / `lightning` packages is
recorded, with its arguments and its answer, in a call history. The answers of
the RPC clients, of `bitcoinOnChain` and of the signers are arbitrary functions
of the history so far and of the arguments, so a theorem quantified over
`Client` and `Packages` holds for every deterministic behaviour of the outside
world, stateful or not.
-/

namespace Peerswap

/-! ## Bytes, errors, `encoding/hex`, `encoding/base64` -/

/-- One octet. -/
abbrev Byte := Fin 256

/-- A Go `[]byte`. -/
abbrev Bytes := List Byte

/-- A Go `error` value, identified by its message. -/
structure Error where
  msg : String
deriving DecidableEq, Repr

deriving instance DecidableEq for Except

/-- The bytes of a Go string: the UTF-8 encoding of its characters. -/
def stringBytes (s : String) : Bytes :=
  s.data.flatMap (fun c => (String.utf8EncodeChar c).map (fun b => Fin.ofNat b.toNat))

/-- The table `hextable = "0123456789abcdef"` of `encoding/hex`. -/
def hextable (n : Fin 16) : Char := "0123456789abcdef".data.getD n.val '0'

/-- The high nibble `v >> 4` of a byte. -/
def hiNibble (v : Byte) : Fin 16 := ⟨v.val / 16, by omega⟩

/-- The low nibble `v & 0x0f` of a byte. -/
def loNibble (v : Byte) : Fin 16 := ⟨v.val % 16, by omega⟩

/-- The byte `(a << 4) | b` of two nibbles. -/
def joinNibbles (a b : Fin 16) : Byte := ⟨a.val * 16 + b.val, by omega⟩

/-- The characters written by `hex.EncodeToString`: two per byte, high nibble first. -/
def hexEncodeChars : Bytes → List Char
  | [] => []
  | v :: rest => hextable (hiNibble v) :: hextable (loNibble v) :: hexEncodeChars rest

/-- Go `hex.EncodeToString`. -/
def hexEncodeToString (src : Bytes) : String := String.mk (hexEncodeChars src)

/-- Value of one hexadecimal digit, either case; `none` for any other byte. -/
def fromHexChar (c : Byte) : Option (Fin 16) :=
  if h : 48 ≤ c.val ∧ c.val ≤ 57 then some ⟨c.val - 48, by omega⟩
  else if h : 97 ≤ c.val ∧ c.val ≤ 102 then some ⟨c.val - 97 + 10, by omega⟩
  else if h : 65 ≤ c.val ∧ c.val ≤ 70 then some ⟨c.val - 65 + 10, by omega⟩
  else none

/-- Go `hex.ErrLength`. -/
def ErrLength : Error := ⟨"encoding/hex: odd length hex string"⟩

/-- Go `strconv.IsPrint` on a rune below 256. -/
def isPrintLatin1 (c : Byte) : Bool :=
  (32 ≤ c.val && c.val ≤ 126) || (161 ≤ c.val && c.val != 173)

/-- The verb `%#U` of `fmt` on a rune below 256: `U+0067 'g'`, without the
quoted character when it is not printable. -/
def formatSharpU (c : Byte) : String :=
  String.mk (['U', '+', '0', '0'] ++
    ["0123456789ABCDEF".data.getD (c.val / 16) '0',
     "0123456789ABCDEF".data.getD (c.val % 16) '0'] ++
    (if isPrintLatin1 c then [' ', '\x27', Char.ofNat c.val, '\x27'] else []))

/-- Go `hex.InvalidByteError`, with the message of its `Error` method. -/
def InvalidByteError (c : Byte) : Error := ⟨"encoding/hex: invalid byte: " ++ formatSharpU c⟩

/-- The loop of `hex.Decode`: pairs of bytes are read left to right, the first
invalid byte is reported, and an odd length is reported only when every earlier
byte (and the dangling one) is a digit. -/
def hexDecodeBytes : Bytes → Except Error Bytes
  | [] => .ok []
  | [p] =>
    match fromHexChar p with
    | none => .error (InvalidByteError p)
    | some _ => .error ErrLength
  | p :: q :: rest =>
    match fromHexChar p with
    | none => .error (InvalidByteError p)
    | some a =>
      match fromHexChar q with
      | none => .error (InvalidByteError q)
      | some b =>
        match hexDecodeBytes rest with
        | .error e => .error e
        | .ok bs => .ok (joinNibbles a b :: bs)

/-- Go `hex.DecodeString`; the bytes decoded before an error are dropped, as
every caller here ignores them. -/
def hexDecodeString (s : String) : Except Error Bytes := hexDecodeBytes (stringBytes s)

/-- The alphabet of `base64.StdEncoding`. -/
def encodeStd : List Char :=
  "ABCDEFGHIJKLMNOPQRSTUVWXYZabcdefghijklmnopqrstuvwxyz0123456789+/".data

/-- Character of a six-bit value. -/
def b64Char (n : Nat) : Char := encodeStd.getD n 'A'

/-- The characters written by `base64.StdEncoding.EncodeToString`: four per
three bytes, the last group padded with `=`. -/
def base64EncodeChars : Bytes → List Char
  | [] => []
  | [a] => [b64Char (a.val / 4), b64Char (a.val % 4 * 16), '=', '=']
  | [a, b] =>
    [b64Char (a.val / 4), b64Char (a.val % 4 * 16 + b.val / 16), b64Char (b.val % 16 * 4), '=']
  | a :: b :: c :: rest =>
    b64Char (a.val / 4) :: b64Char (a.val % 4 * 16 + b.val / 16) ::
      b64Char (b.val % 16 * 4 + c.val / 64) :: b64Char (c.val % 64) :: base64EncodeChars rest

/-- Go `base64.StdEncoding.EncodeToString`. -/
def base64EncodeToString (src : Bytes) : String := String.mk (base64EncodeChars src)

/-! ## Data model -/

/-- Modelled from the spec: `swap.OpeningParams` is declared in package `swap`,
not in `lnd_wallet.go`; section 3 lists the amount in satoshis, the maker and
taker public keys and the 32-byte hash of the secret preimage. Only `Amount` is
read by `lnd_wallet.go`. -/
structure OpeningParams where
  TakerPubkey : String
  MakerPubkey : String
  ClaimPaymentHash : Bytes
  Amount : Nat
deriving DecidableEq, Repr

/-- A `swap.Signer` handle; what it signs is decided by `Packages.Sign`. -/
structure Signer where
  key : String
deriving DecidableEq, Repr

/-- The fields of `swap.ClaimParams` that `lnd_wallet.go` reads. -/
structure ClaimParams where
  Preimage : String
  Signer : Signer
  OpeningTxHex : String
deriving DecidableEq, Repr

/-- A signature as returned by `Signer.Sign`. -/
structure Signature where
  R : Nat
  S : Nat
deriving DecidableEq, Repr

/-- The type `lightning.Preimage`, a `[32]byte`. -/
abbrev Preimage := { b : Bytes // b.length = 32 }

/-- The type `wire.OutPoint`. -/
structure OutPoint where
  Hash : String
  Index : Nat
deriving DecidableEq, Repr

/-- The type `wire.TxIn`. -/
structure WireTxIn where
  PreviousOutPoint : OutPoint
  SignatureScript : Bytes
  Witness : List Bytes
  Sequence : Nat
deriving DecidableEq, Repr

/-- The type `wire.TxOut`. -/
structure WireTxOut where
  Value : Nat
  PkScript : Bytes
deriving DecidableEq, Repr

/-- The type `wire.MsgTx`. -/
structure MsgTx where
  Version : Nat
  TxIn : List WireTxIn
  TxOut : List WireTxOut
  LockTime : Nat
deriving DecidableEq, Repr

/-- The type `psbt.Packet`, as far as it is handled here: parsed and written back. -/
structure Packet where
  UnsignedTx : MsgTx
  Inputs : List Bytes
deriving DecidableEq, Repr

/-- The type `walletrpc.TxTemplate`; `Outputs` is a Go map, listed by entries. -/
structure TxTemplate where
  Inputs : List OutPoint
  Outputs : List (String × Nat)
deriving DecidableEq, Repr

/-- The `template` alternatives of `walletrpc.FundPsbtRequest`. -/
inductive FundPsbtRequest_Template where
  | Psbt (psbt : Bytes)
  | Raw (raw : TxTemplate)
deriving DecidableEq, Repr

/-- The `fees` alternatives of `walletrpc.FundPsbtRequest`. -/
inductive FundPsbtRequest_Fees where
  | TargetConf (targetConf : Nat)
  | SatPerVbyte (satPerVbyte : Nat)
deriving DecidableEq, Repr

/-- The type `walletrpc.FundPsbtRequest`. -/
structure FundPsbtRequest where
  Template : FundPsbtRequest_Template
  Fees : FundPsbtRequest_Fees
deriving DecidableEq, Repr

/-- The type `walletrpc.FundPsbtResponse`, the field read here. -/
structure FundPsbtResponse where
  FundedPsbt : Bytes
deriving DecidableEq, Repr

/-- The type `walletrpc.FinalizePsbtRequest`. -/
structure FinalizePsbtRequest where
  FundedPsbt : Bytes
deriving DecidableEq, Repr

/-- The type `walletrpc.FinalizePsbtResponse`. -/
structure FinalizePsbtResponse where
  SignedPsbt : Bytes
  RawFinalTx : Bytes
deriving DecidableEq, Repr

/-- The type `walletrpc.Transaction`. -/
structure Transaction where
  TxHex : Bytes
deriving DecidableEq, Repr

/-- The type `walletrpc.PublishResponse`. -/
structure PublishResponse where
  PublishError : String
deriving DecidableEq, Repr

/-- The type `lnrpc.AddressType`. -/
inductive AddressType where
  | WITNESS_PUBKEY_HASH
  | NESTED_PUBKEY_HASH
  | UNUSED_WITNESS_PUBKEY_HASH
  | UNUSED_NESTED_PUBKEY_HASH
deriving DecidableEq, Repr

/-- The type `lnrpc.NewAddressRequest`. -/
structure NewAddressRequest where
  Type_ : AddressType
deriving DecidableEq, Repr

/-- The type `lnrpc.NewAddressResponse`. -/
structure NewAddressResponse where
  Address : String
deriving DecidableEq, Repr

/-- Modelled from the spec: the constant `onchain.BitcoinCsv` is declared in
package `onchain`, not in `lnd_wallet.go`; section 8 gives the configured
relative timelock as 1008. -/
def BitcoinCsv : Nat := 1008

/-! ## Call history -/

/-- One call leaving `lnd_wallet.go`, with its arguments and its answer. -/
inductive Event where
  | CreateOpeningAddress (params : OpeningParams) (csv : Nat) (res : Except Error String)
  | FundPsbt (req : FundPsbtRequest) (res : Except Error FundPsbtResponse)
  | FinalizePsbt (req : FinalizePsbtRequest) (res : Except Error FinalizePsbtResponse)
  | GetFeeSatsFromTx (psbtString rawTxHex : String) (res : Except Error Nat)
  | GetVoutAndVerify (txHex : String) (params : OpeningParams) (res : Except Error (String × Nat))
  | PublishTransaction (tx : Transaction) (res : Except Error PublishResponse)
  | NewAddress (req : NewAddressRequest) (res : Except Error NewAddressResponse)
  | PrepareSpendingTransaction (swapParams : OpeningParams) (claimParams : ClaimParams)
      (spendingAddr : String) (vout csv preparedFee : Nat)
      (res : Except Error (MsgTx × Bytes × Bytes))
  | Sign (signer : Signer) (hash : Bytes) (res : Except Error Signature)
  | GetFee (txSize : Nat) (res : Except Error Nat)
  | MakePreimageFromStr (str : String) (res : Except Error Preimage)
  | GetPreimageWitness (signature preimage redeemScript : Bytes) (res : List Bytes)
  | GetCsvWitness (signature redeemScript : Bytes) (res : List Bytes)
  | GetCooperativeWitness (takerSig makerSig redeemScript : Bytes) (res : List Bytes)
deriving DecidableEq

/-- How a Go function body ends: a normal result, an early `return ..., err`,
or a run-time panic. -/
inductive Outcome (α : Type) where
  | ok (a : α)
  | err (e : Error)
  | panic
deriving DecidableEq

/-- A computation that reads and extends the call history. -/
def Exec (α : Type) : Type := List Event → Outcome α × List Event

/-- Sequencing: an error or a panic of the first part ends the whole. -/
def Exec.bind {α β : Type} (m : Exec α) (f : α → Exec β) : Exec β := fun h =>
  match m h with
  | (.ok a, h1) => f a h1
  | (.err e, h1) => (.err e, h1)
  | (.panic, h1) => (.panic, h1)

instance : Monad Exec where
  pure a := fun h => (.ok a, h)
  bind := Exec.bind

/-- A recorded call whose answer may depend on the history; `if err != nil` follows it. -/
def call {α : Type} (answer : List Event → Except Error α) (ev : Except Error α → Event) :
    Exec α := fun h =>
  match answer h with
  | .ok a => (.ok a, h ++ [ev (.ok a)])
  | .error e => (.err e, h ++ [ev (.error e)])

/-- A recorded call of a function that cannot fail. -/
def callPure {α : Type} (a : α) (ev : α → Event) : Exec α := fun h => (.ok a, h ++ [ev a])

/-- A step of the standard library or of btcd, followed by `if err != nil`; not recorded. -/
def step {α : Type} (r : Except Error α) : Exec α := fun h =>
  match r with
  | .ok a => (.ok a, h)
  | .error e => (.err e, h)

/-- A run-time panic. -/
def panicNow {α : Type} : Exec α := fun h => (.panic, h)

/-- Run from the empty history. -/
def Exec.run {α : Type} (m : Exec α) : Outcome α × List Event := m []

/-! ## The collaborators of `lnd.Client` -/

/-- The methods of `onchain.BitcoinOnChain` called by `lnd_wallet.go`, except
`GetFeeSatsFromTx`, which is defined below; `psbtInputValues` is the reading
of the input values of a base64 PSBT that `GetFeeSatsFromTx` needs. -/
structure BitcoinOnChain where
  CreateOpeningAddress : List Event → OpeningParams → Nat → Except Error String
  GetVoutAndVerify : List Event → String → OpeningParams → Except Error (String × Nat)
  PrepareSpendingTransaction : List Event → OpeningParams → ClaimParams → String → Nat → Nat →
    Nat → Except Error (MsgTx × Bytes × Bytes)
  GetFee : List Event → Nat → Except Error Nat
  psbtInputValues : String → Except Error (List Nat)

/-- The methods of `walletrpc.WalletKitClient` called by `lnd_wallet.go`. -/
structure WalletKitClient where
  FundPsbt : List Event → FundPsbtRequest → Except Error FundPsbtResponse
  FinalizePsbt : List Event → FinalizePsbtRequest → Except Error FinalizePsbtResponse
  PublishTransaction : List Event → Transaction → Except Error PublishResponse

/-- The methods of `lnrpc.LightningClient` called by the operations below. -/
structure LightningClient where
  NewAddress : List Event → NewAddressRequest → Except Error NewAddressResponse

/-- The type `lnd.Client`. -/
structure Client where
  lndClient : LightningClient
  walletClient : WalletKitClient
  bitcoinOnChain : BitcoinOnChain

/-- Functions of other packages, known here by their signatures only:
btcd `wire` and `psbt` (de)serialisation, the `Sign` method of the signers,
`Signature.Serialize`, `lightning.MakePreimageFromStr` and the three witness
builders of `onchain`. -/
structure Packages where
  psbtNewFromRawBytes : Bytes → Except Error Packet
  psbtSerialize : Packet → Except Error Bytes
  txDeserialize : Bytes → Except Error MsgTx
  txSerialize : MsgTx → Except Error Bytes
  txHash : MsgTx → String
  Sign : Signer → List Event → Bytes → Except Error Signature
  sigSerialize : Signature → Bytes
  MakePreimageFromStr : String → Except Error Preimage
  GetPreimageWitness : Bytes → Bytes → Bytes → List Bytes
  GetCsvWitness : Bytes → Bytes → List Bytes
  GetCooperativeWitness : Bytes → Bytes → Bytes → List Bytes

/-! ## The operations of `lnd_wallet.go` -/

/-- Modelled from the spec: `BitcoinOnChain.GetFeeSatsFromTx` is defined in
package `onchain`, not in `lnd_wallet.go`; section 4.2 describes the realized fee
as (sum of selected inputs) - (sum of outputs), read off the finalized
transaction. The input values
are read from the PSBT by `psbtInputValues`, the output values from the decoded
raw transaction. Amounts are natural numbers: the difference is 0 should the
outputs exceed the inputs. -/
def GetFeeSatsFromTx (pk : Packages) (b : BitcoinOnChain) (psbtString txHex : String) :
    Except Error Nat :=
  match b.psbtInputValues psbtString with
  | .error e => .error e
  | .ok ins =>
    match hexDecodeString txHex with
    | .error e => .error e
    | .ok txBytes =>
      match pk.txDeserialize txBytes with
      | .error e => .error e
      | .ok tx => .ok (ins.sum - (tx.TxOut.map WireTxOut.Value).sum)

/-- The transaction after `tx.TxIn[0].Witness = w`; `none` when `TxIn` is empty. -/
def MsgTx.withWitness (tx : MsgTx) (w : List Bytes) : Option MsgTx :=
  match tx.TxIn with
  | [] => none
  | i :: rest => some { tx with TxIn := { i with Witness := w } :: rest }

/-- The assignment `tx.TxIn[0].Witness = w`; indexing an empty `TxIn` panics. -/
def setWitness (tx : MsgTx) (w : List Bytes) : Exec MsgTx :=
  match tx.withWitness w with
  | none => panicNow
  | some signed => pure signed

/-- Go `Client.NewAddress`. -/
def Client.NewAddress (l : Client) : Exec String := do
  let res ← call (fun h => l.lndClient.NewAddress h ⟨AddressType.WITNESS_PUBKEY_HASH⟩)
    (Event.NewAddress ⟨AddressType.WITNESS_PUBKEY_HASH⟩)
  pure res.Address

/-- Go `Client.GetRefundFee`. -/
def Client.GetRefundFee (l : Client) : Exec Nat :=
  call (fun h => l.bitcoinOnChain.GetFee h 250) (Event.GetFee 250)

/-- Go `Client.GetFlatSwapOutFee`: the fee that `GetFee` quotes for the size
`onchain.EstimatedOpeningTxSize`, which is an argument here. The Go doc comment
speaks of "an estimated size"; the body returns the fee, not the size. -/
def Client.GetFlatSwapOutFee (l : Client) (EstimatedOpeningTxSize : Nat) : Exec Nat :=
  call (fun h => l.bitcoinOnChain.GetFee h EstimatedOpeningTxSize)
    (Event.GetFee EstimatedOpeningTxSize)

/-- Go `Client.CreateOpeningTransaction`; the result is
`(unpreparedTxHex, fee, vout)`. -/
def Client.CreateOpeningTransaction (pk : Packages) (l : Client) (swapParams : OpeningParams) :
    Exec (String × Nat × Nat) := do
  let addr ← call (fun h => l.bitcoinOnChain.CreateOpeningAddress h swapParams BitcoinCsv)
    (Event.CreateOpeningAddress swapParams BitcoinCsv)
  let fundPsbtTemplate : TxTemplate := { Inputs := [], Outputs := [(addr, swapParams.Amount)] }
  let fundReq : FundPsbtRequest :=
    { Template := FundPsbtRequest_Template.Raw fundPsbtTemplate,
      Fees := FundPsbtRequest_Fees.TargetConf 3 }
  let fundRes ← call (fun h => l.walletClient.FundPsbt h fundReq) (Event.FundPsbt fundReq)
  let unsignedPacket ← step (pk.psbtNewFromRawBytes fundRes.FundedPsbt)
  let bytesBuffer ← step (pk.psbtSerialize unsignedPacket)
  let finalizeReq : FinalizePsbtRequest := { FundedPsbt := bytesBuffer }
  let finalizeRes ← call (fun h => l.walletClient.FinalizePsbt h finalizeReq)
    (Event.FinalizePsbt finalizeReq)
  let psbtString := base64EncodeToString finalizeRes.SignedPsbt
  let rawTxHex := hexEncodeToString finalizeRes.RawFinalTx
  let fee ← call (fun _ => GetFeeSatsFromTx pk l.bitcoinOnChain psbtString rawTxHex)
    (Event.GetFeeSatsFromTx psbtString rawTxHex)
  let verified ← call (fun h => l.bitcoinOnChain.GetVoutAndVerify h rawTxHex swapParams)
    (Event.GetVoutAndVerify rawTxHex swapParams)
  pure (rawTxHex, fee, verified.2)

/-- Go `Client.BroadcastOpeningTx`; the result is `(txId, txHex)`. -/
def Client.BroadcastOpeningTx (pk : Packages) (l : Client) (unpreparedTxHex : String) :
    Exec (String × String) := do
  let txBytes ← step (hexDecodeString unpreparedTxHex)
  let openingTx ← step (pk.txDeserialize txBytes)
  let _ ← call (fun h => l.walletClient.PublishTransaction h ⟨txBytes⟩)
    (Event.PublishTransaction ⟨txBytes⟩)
  pure (pk.txHash openingTx, unpreparedTxHex)

/-- Go `Client.CreatePreimageSpendingTransaction`; the result is `(txId, txHex)`. -/
def Client.CreatePreimageSpendingTransaction (pk : Packages) (l : Client)
    (swapParams : OpeningParams) (claimParams : ClaimParams) : Exec (String × String) := do
  let verified ← call
    (fun h => l.bitcoinOnChain.GetVoutAndVerify h claimParams.OpeningTxHex swapParams)
    (Event.GetVoutAndVerify claimParams.OpeningTxHex swapParams)
  let vout := verified.2
  let newAddr ← l.NewAddress
  let prepared ← call
    (fun h => l.bitcoinOnChain.PrepareSpendingTransaction h swapParams claimParams newAddr vout 0 0)
    (Event.PrepareSpendingTransaction swapParams claimParams newAddr vout 0 0)
  let sigHash := prepared.2.1
  let redeemScript := prepared.2.2
  let sigBytes ← call (fun h => pk.Sign claimParams.Signer h sigHash)
    (Event.Sign claimParams.Signer sigHash)
  let preimage ← call (fun _ => pk.MakePreimageFromStr claimParams.Preimage)
    (Event.MakePreimageFromStr claimParams.Preimage)
  let witness ← callPure
    (pk.GetPreimageWitness (pk.sigSerialize sigBytes) preimage.val redeemScript)
    (Event.GetPreimageWitness (pk.sigSerialize sigBytes) preimage.val redeemScript)
  let tx ← setWitness prepared.1 witness
  let bytesBuffer ← step (pk.txSerialize tx)
  let txHex := hexEncodeToString bytesBuffer
  let _ ← call (fun h => l.walletClient.PublishTransaction h ⟨bytesBuffer⟩)
    (Event.PublishTransaction ⟨bytesBuffer⟩)
  pure (pk.txHash tx, txHex)

/-- Go `Client.CreateCsvSpendingTransaction`; the result is `(txId, txHex)`. -/
def Client.CreateCsvSpendingTransaction (pk : Packages) (l : Client)
    (swapParams : OpeningParams) (claimParams : ClaimParams) : Exec (String × String) := do
  let newAddr ← l.NewAddress
  let verified ← call
    (fun h => l.bitcoinOnChain.GetVoutAndVerify h claimParams.OpeningTxHex swapParams)
    (Event.GetVoutAndVerify claimParams.OpeningTxHex swapParams)
  let vout := verified.2
  let prepared ← call
    (fun h => l.bitcoinOnChain.PrepareSpendingTransaction h swapParams claimParams newAddr vout
      BitcoinCsv 0)
    (Event.PrepareSpendingTransaction swapParams claimParams newAddr vout BitcoinCsv 0)
  let sigHash := prepared.2.1
  let redeemScript := prepared.2.2
  let sigBytes ← call (fun h => pk.Sign claimParams.Signer h sigHash)
    (Event.Sign claimParams.Signer sigHash)
  let witness ← callPure (pk.GetCsvWitness (pk.sigSerialize sigBytes) redeemScript)
    (Event.GetCsvWitness (pk.sigSerialize sigBytes) redeemScript)
  let tx ← setWitness prepared.1 witness
  let bytesBuffer ← step (pk.txSerialize tx)
  let txHex := hexEncodeToString bytesBuffer
  let _ ← call (fun h => l.walletClient.PublishTransaction h ⟨bytesBuffer⟩)
    (Event.PublishTransaction ⟨bytesBuffer⟩)
  pure (pk.txHash tx, txHex)

/-- Go `Client.CreateCoopSpendingTransaction`; the result is `(txId, txHex)`. -/
def Client.CreateCoopSpendingTransaction (pk : Packages) (l : Client)
    (swapParams : OpeningParams) (claimParams : ClaimParams) (takerSigner : Signer) :
    Exec (String × String) := do
  let refundAddr ← l.NewAddress
  let refundFee ← l.GetRefundFee
  let verified ← call
    (fun h => l.bitcoinOnChain.GetVoutAndVerify h claimParams.OpeningTxHex swapParams)
    (Event.GetVoutAndVerify claimParams.OpeningTxHex swapParams)
  let vout := verified.2
  let prepared ← call
    (fun h => l.bitcoinOnChain.PrepareSpendingTransaction h swapParams claimParams refundAddr vout
      0 refundFee)
    (Event.PrepareSpendingTransaction swapParams claimParams refundAddr vout 0 refundFee)
  let sigHashBytes := prepared.2.1
  let redeemScript := prepared.2.2
  let takerSig ← call (fun h => pk.Sign takerSigner h sigHashBytes)
    (Event.Sign takerSigner sigHashBytes)
  let makerSig ← call (fun h => pk.Sign claimParams.Signer h sigHashBytes)
    (Event.Sign claimParams.Signer sigHashBytes)
  let witness ← callPure
    (pk.GetCooperativeWitness (pk.sigSerialize takerSig) (pk.sigSerialize makerSig) redeemScript)
    (Event.GetCooperativeWitness (pk.sigSerialize takerSig) (pk.sigSerialize makerSig)
      redeemScript)
  let spendingTx ← setWitness prepared.1 witness
  let bytesBuffer ← step (pk.txSerialize spendingTx)
  let txHex := hexEncodeToString bytesBuffer
  let _ ← call (fun h => l.walletClient.PublishTransaction h ⟨bytesBuffer⟩)
    (Event.PublishTransaction ⟨bytesBuffer⟩)
  pure (pk.txHash spendingTx, txHex)

/-- What a Go function with results `(string, string, error)` hands back: the
pair and `nil` at the final `return`, `"", "", err` at an early one; `none`
stands for a panic. -/
def returnedSpend : Outcome (String × String) → Option (String × String × Option Error)
  | .ok (txId, txHex) => some (txId, txHex, none)
  | .err e => some ("", "", some e)
  | .panic => none

/-- What `CreateOpeningTransaction` hands back: the triple and `nil` at the final
`return`, `"", 0, 0, err` at an early one; `none` stands for a panic. -/
def returnedOpening : Outcome (String × Nat × Nat) → Option (String × Nat × Nat × Option Error)
  | .ok (txHex, fee, vout) => some (txHex, fee, vout, none)
  | .err e => some ("", 0, 0, some e)
  | .panic => none

/-! ## Observations on the call history -/

/-- A call of `Signer.Sign`. -/
def Event.isSign : Event → Bool
  | .Sign _ _ _ => true
  | _ => false

/-- A call of `walletClient.PublishTransaction`. -/
def Event.isPublishTransaction : Event → Bool
  | .PublishTransaction _ _ => true
  | _ => false

/-- A call of `lndClient.NewAddress`. -/
def Event.isNewAddress : Event → Bool
  | .NewAddress _ _ => true
  | _ => false

/-- A call of `bitcoinOnChain.GetFee`, the estimator behind `GetRefundFee` and
`GetFlatSwapOutFee`. -/
def Event.isGetFee : Event → Bool
  | .GetFee _ _ => true
  | _ => false

/-- The output index handed to `PrepareSpendingTransaction`. -/
def Event.voutArg : Event → Option Nat
  | .PrepareSpendingTransaction _ _ _ vout _ _ _ => some vout
  | _ => none

/-- The relative timelock handed to `PrepareSpendingTransaction`. -/
def Event.csvArg : Event → Option Nat
  | .PrepareSpendingTransaction _ _ _ _ csv _ _ => some csv
  | _ => none

/-- The fee handed to `PrepareSpendingTransaction`. -/
def Event.preparedFeeArg : Event → Option Nat
  | .PrepareSpendingTransaction _ _ _ _ _ preparedFee _ => some preparedFee
  | _ => none

/-- The request handed to `walletClient.FundPsbt`. -/
def Event.fundPsbtArg : Event → Option FundPsbtRequest
  | .FundPsbt req _ => some req
  | _ => none

/-- An accepted `GetVoutAndVerify` call on the given transaction and parameters. -/
def Event.isAcceptedVerify (txHex : String) (params : OpeningParams) : Event → Bool
  | .GetVoutAndVerify t p (.ok _) => decide (t = txHex ∧ p = params)
  | _ => false

/-- A call that acts on the opening transaction: `PrepareSpendingTransaction`,
`Signer.Sign` or `PublishTransaction`. -/
def Event.usesOpeningTx : Event → Bool
  | .PrepareSpendingTransaction _ _ _ _ _ _ _ => true
  | .Sign _ _ _ => true
  | .PublishTransaction _ _ => true
  | _ => false

/-- A scan of the history: no event of kind `guarded` occurs until an event of
kind `gate` has occurred. -/
def onlyAfter (gate guarded : Event → Bool) : List Event → Bool
  | [] => true
  | ev :: rest => !guarded ev && (gate ev || onlyAfter gate guarded rest)

/-- In the history `log`, every `PrepareSpendingTransaction`, `Signer.Sign` and
`PublishTransaction` comes after a `GetVoutAndVerify` call on `txHex` and
`params` that accepted. -/
def VerifiedFirst (txHex : String) (params : OpeningParams) (log : List Event) : Prop :=
  ∀ pre ev post, log = pre ++ ev :: post → ev.usesOpeningTx = true →
    ∃ verified, Event.GetVoutAndVerify txHex params (.ok verified) ∈ pre

/-! ## SHA-256

The hash that commits to a Lightning preimage (FIPS 180-4), needed only to say
which preimages match `OpeningParams.ClaimPaymentHash`; no operation of
`lnd_wallet.go` evaluates it. -/

/-- The round constants. -/
def sha256K : List Nat := [
  0x428a2f98, 0x71374491, 0xb5c0fbcf, 0xe9b5dba5, 0x3956c25b, 0x59f111f1, 0x923f82a4, 0xab1c5ed5,
  0xd807aa98, 0x12835b01, 0x243185be, 0x550c7dc3, 0x72be5d74, 0x80deb1fe, 0x9bdc06a7, 0xc19bf174,
  0xe49b69c1, 0xefbe4786, 0x0fc19dc6, 0x240ca1cc, 0x2de92c6f, 0x4a7484aa, 0x5cb0a9dc, 0x76f988da,
  0x983e5152, 0xa831c66d, 0xb00327c8, 0xbf597fc7, 0xc6e00bf3, 0xd5a79147, 0x06ca6351, 0x14292967,
  0x27b70a85, 0x2e1b2138, 0x4d2c6dfc, 0x53380d13, 0x650a7354, 0x766a0abb, 0x81c2c92e, 0x92722c85,
  0xa2bfe8a1, 0xa81a664b, 0xc24b8b70, 0xc76c51a3, 0xd192e819, 0xd6990624, 0xf40e3585, 0x106aa070,
  0x19a4c116, 0x1e376c08, 0x2748774c, 0x34b0bcb5, 0x391c0cb3, 0x4ed8aa4a, 0x5b9cca4f, 0x682e6ff3,
  0x748f82ee, 0x78a5636f, 0x84c87814, 0x8cc70208, 0x90befffa, 0xa4506ceb, 0xbef9a3f7, 0xc67178f2]

/-- The initial hash value. -/
def sha256Init : List Nat :=
  [0x6a09e667, 0xbb67ae85, 0x3c6ef372, 0xa54ff53a, 0x510e527f, 0x9b05688c, 0x1f83d9ab, 0x5be0cd19]

/-- Rotation of a 32-bit word to the right. -/
def rotr (x n : Nat) : Nat := (x >>> n ||| x <<< (32 - n)) % 2 ^ 32

/-- Addition of 32-bit words. -/
def add32 (a b : Nat) : Nat := (a + b) % 2 ^ 32

/-- Padding: the byte 0x80, zeros up to 56 modulo 64, the bit length on 8 bytes. -/
def sha256Pad (m : List Nat) : List Nat :=
  m ++ [0x80] ++ List.replicate ((119 - m.length % 64) % 64) 0 ++
    (List.range 8).map (fun i => (m.length * 8) >>> (8 * (7 - i)) % 256)

/-- The first `n` big-endian 32-bit words of a byte list. -/
def wordsOf : Nat → List Nat → List Nat
  | 0, _ => []
  | n + 1, a :: b :: c :: d :: rest => (a <<< 24 ||| b <<< 16 ||| c <<< 8 ||| d) :: wordsOf n rest
  | _ + 1, _ => []

/-- The message schedule: 16 words extended to 64. -/
def sha256Schedule (w : List Nat) : List Nat :=
  (List.range 48).foldl (fun w i =>
    let w15 := w.getD (i + 1) 0
    let w2 := w.getD (i + 14) 0
    let s0 := rotr w15 7 ^^^ rotr w15 18 ^^^ (w15 >>> 3)
    let s1 := rotr w2 17 ^^^ rotr w2 19 ^^^ (w2 >>> 10)
    w ++ [add32 (add32 (w.getD i 0) s0) (add32 (w.getD (i + 9) 0) s1)]) w

/-- The compression of one 64-byte block into the running hash. -/
def sha256Compress (hs : List Nat) (block : List Nat) : List Nat :=
  let w := sha256Schedule (wordsOf 16 block)
  let r := (List.range 64).foldl (fun (s : List Nat) i =>
    match s with
    | [a, b, c, d, e, f, g, h] =>
      let s1 := rotr e 6 ^^^ rotr e 11 ^^^ rotr e 25
      let ch := (e &&& f) ^^^ ((e ^^^ (2 ^ 32 - 1)) &&& g)
      let t1 := add32 (add32 (add32 h s1) (add32 ch (sha256K.getD i 0))) (w.getD i 0)
      let s0 := rotr a 2 ^^^ rotr a 13 ^^^ rotr a 22
      let maj := (a &&& b) ^^^ (a &&& c) ^^^ (b &&& c)
      [add32 t1 (add32 s0 maj), a, b, c, add32 d t1, e, f, g]
    | _ => s) hs
  List.zipWith add32 hs r

/-- The first `n` blocks of 64 bytes. -/
def blocksOf : Nat → List Nat → List (List Nat)
  | 0, _ => []
  | n + 1, m => m.take 64 :: blocksOf n (m.drop 64)

/-- SHA-256 of a byte string. -/
def sha256 (m : Bytes) : Bytes :=
  let p := sha256Pad (m.map Fin.val)
  let hs := (blocksOf (p.length / 64) p).foldl sha256Compress sha256Init
  (hs.flatMap (fun x => [x >>> 24 % 256, x >>> 16 % 256, x >>> 8 % 256, x % 256])).map
    (fun n => Fin.ofNat n)

/-- The supplied preimage is well formed and does not hash to the committed
preimage hash. -/
def PreimageMismatch (pk : Packages) (swapParams : OpeningParams) (claimParams : ClaimParams) :
    Prop :=
  ∃ p : Preimage, pk.MakePreimageFromStr claimParams.Preimage = .ok p ∧
    sha256 p.val ≠ swapParams.ClaimPaymentHash

/-- The fee resolution that section 4.4 of the specification words for the
cooperative path: the explicit value if it is non-zero, else the flat estimate.
`CreateCoopSpendingTransaction` has no parameter for the explicit value, which is
therefore always absent, the zero value. -/
def specResolvedFee (feeOverride estimate : Nat) : Nat :=
  if feeOverride ≠ 0 then feeOverride else estimate

/-- The calls of a preimage spend that handed back `(txId, txHex)`, in order, and
how the published bytes come from them. -/
def PreimageSpendTrace (pk : Packages) (sp : OpeningParams) (cp : ClaimParams)
    (txId txHex : String) (log : List Event) : Prop :=
  ∃ (verified : String × Nat) (addr : NewAddressResponse) (tx : MsgTx)
    (sigHash redeemScript : Bytes) (sig : Signature) (preimage : Preimage)
    (signed : MsgTx) (buf : Bytes) (published : PublishResponse),
    log =
      [Event.GetVoutAndVerify cp.OpeningTxHex sp (.ok verified),
       Event.NewAddress ⟨AddressType.WITNESS_PUBKEY_HASH⟩ (.ok addr),
       Event.PrepareSpendingTransaction sp cp addr.Address verified.2 0 0
         (.ok (tx, sigHash, redeemScript)),
       Event.Sign cp.Signer sigHash (.ok sig),
       Event.MakePreimageFromStr cp.Preimage (.ok preimage),
       Event.GetPreimageWitness (pk.sigSerialize sig) preimage.val redeemScript
         (pk.GetPreimageWitness (pk.sigSerialize sig) preimage.val redeemScript),
       Event.PublishTransaction ⟨buf⟩ (.ok published)] ∧
    preimage.val.length = 32 ∧
    tx.withWitness
      (pk.GetPreimageWitness (pk.sigSerialize sig) preimage.val redeemScript) = some signed ∧
    pk.txSerialize signed = .ok buf ∧
    txHex = hexEncodeToString buf ∧
    txId = pk.txHash signed

/-- The calls of a cooperative spend that handed back `(txId, txHex)`, in order,
and how the published bytes come from them. -/
def CoopSpendTrace (pk : Packages) (sp : OpeningParams) (cp : ClaimParams)
    (takerSigner : Signer) (txId txHex : String) (log : List Event) : Prop :=
  ∃ (addr : NewAddressResponse) (refundFee : Nat) (verified : String × Nat) (tx : MsgTx)
    (sigHash redeemScript : Bytes) (takerSig makerSig : Signature) (signed : MsgTx)
    (buf : Bytes) (published : PublishResponse),
    log =
      [Event.NewAddress ⟨AddressType.WITNESS_PUBKEY_HASH⟩ (.ok addr),
       Event.GetFee 250 (.ok refundFee),
       Event.GetVoutAndVerify cp.OpeningTxHex sp (.ok verified),
       Event.PrepareSpendingTransaction sp cp addr.Address verified.2 0 refundFee
         (.ok (tx, sigHash, redeemScript)),
       Event.Sign takerSigner sigHash (.ok takerSig),
       Event.Sign cp.Signer sigHash (.ok makerSig),
       Event.GetCooperativeWitness (pk.sigSerialize takerSig) (pk.sigSerialize makerSig)
         redeemScript
         (pk.GetCooperativeWitness (pk.sigSerialize takerSig) (pk.sigSerialize makerSig)
           redeemScript),
       Event.PublishTransaction ⟨buf⟩ (.ok published)] ∧
    tx.withWitness
      (pk.GetCooperativeWitness (pk.sigSerialize takerSig) (pk.sigSerialize makerSig)
        redeemScript) = some signed ∧
    pk.txSerialize signed = .ok buf ∧
    txHex = hexEncodeToString buf ∧
    txId = pk.txHash signed

/-! ## A sample world

Concrete collaborators on which the operations can be evaluated. -/

/-- A `lightning.MakePreimageFromStr` that decodes the hexadecimal string and
insists on 32 bytes. -/
def sampleMakePreimageFromStr (str : String) : Except Error Preimage :=
  match hexDecodeString str with
  | .error e => .error e
  | .ok b => if h : b.length = 32 then .ok ⟨b, h⟩ else .error ⟨"invalid preimage length"⟩

/-- The transaction the sample `txDeserialize` reads from any bytes: a swap
output of 100000 sat and a change output of 49000 sat. -/
def sampleOpeningTx : MsgTx :=
  { Version := 2,
    TxIn := [{ PreviousOutPoint := ⟨"fundingtxid", 0⟩, SignatureScript := [], Witness := [],
               Sequence := 0 }],
    TxOut := [⟨49000, [0, 20]⟩, ⟨100000, [0, 32]⟩],
    LockTime := 0 }

/-- The unsigned spending transaction the sample `PrepareSpendingTransaction`
builds: one input on output `vout` of the opening transaction with sequence
`csv`, one output of the amount less the fee. -/
def sampleSpendingTx (amount vout csv fee : Nat) : MsgTx :=
  { Version := 2,
    TxIn := [{ PreviousOutPoint := ⟨"openingtxid", vout⟩, SignatureScript := [], Witness := [],
               Sequence := csv }],
    TxOut := [⟨amount - fee, [0, 20]⟩],
    LockTime := 0 }

/-- Sample packages: signatures and serialisations are small tokens. -/
def samplePackages : Packages :=
  { psbtNewFromRawBytes := fun _ => .ok ⟨sampleOpeningTx, []⟩,
    psbtSerialize := fun _ => .ok [112, 115, 98, 116],
    txDeserialize := fun _ => .ok sampleOpeningTx,
    txSerialize := fun tx => .ok ((tx.TxIn.map (fun i => i.Witness.flatten)).flatten),
    txHash := fun tx => if tx.TxOut.length = 2 then "openingtxid" else "spendingtxid",
    Sign := fun signer _ hash => .ok ⟨signer.key.length, hash.length⟩,
    sigSerialize := fun s => [Fin.ofNat s.R, Fin.ofNat s.S],
    MakePreimageFromStr := sampleMakePreimageFromStr,
    GetPreimageWitness := fun sig preimage script => [sig, preimage, [], script],
    GetCsvWitness := fun sig script => [sig, [], script],
    GetCooperativeWitness := fun takerSig makerSig script => [takerSig, makerSig, [1], script] }

/-- A sample `bitcoinOnChain`: the verifier accepts output 1 or rejects, as
told; the fee estimator charges one satoshi per virtual byte. -/
def sampleChain (verifies : Bool) : BitcoinOnChain :=
  { CreateOpeningAddress := fun _ _ _ => .ok "bcrt1qswap",
    GetVoutAndVerify := fun _ _ _ =>
      if verifies then .ok ("openingtxid", 1) else .error ⟨"tx does not contain expected output"⟩,
    PrepareSpendingTransaction := fun _ sp _ _ vout csv fee =>
      .ok (sampleSpendingTx sp.Amount vout csv fee, [170, 187], [99]),
    GetFee := fun _ txSize => .ok txSize,
    psbtInputValues := fun _ => .ok [150000] }

/-- A sample wallet that funds, finalizes and publishes everything. -/
def sampleWallet : WalletKitClient :=
  { FundPsbt := fun _ _ => .ok ⟨[1, 2, 3]⟩,
    FinalizePsbt := fun _ _ => .ok ⟨[77, 97, 110], [2, 0, 171]⟩,
    PublishTransaction := fun _ _ => .ok ⟨""⟩ }

/-- A sample node that hands out one address. -/
def sampleLnd : LightningClient :=
  { NewAddress := fun _ _ => .ok ⟨"bcrt1qfresh"⟩ }

/-- The sample client. -/
def sampleClient (verifies : Bool) : Client :=
  { lndClient := sampleLnd, walletClient := sampleWallet, bitcoinOnChain := sampleChain verifies }

/-- Sample opening parameters: 100000 sat, committed to the SHA-256 of thirty-two
zero bytes, `66687aad...2925`. -/
def sampleOpeningParams : OpeningParams :=
  { TakerPubkey := "02aa", MakerPubkey := "03bb",
    ClaimPaymentHash :=
      [0x66, 0x68, 0x7a, 0xad, 0xf8, 0x62, 0xbd, 0x77, 0x6c, 0x8f, 0xc1, 0x8b, 0x8e, 0x9f, 0x8e,
       0x20, 0x08, 0x97, 0x14, 0x85, 0x6e, 0xe2, 0x33, 0xb3, 0x90, 0x2a, 0x59, 0x1d, 0x0d, 0x5f,
       0x29, 0x25],
    Amount := 100000 }

/-- Sample claim parameters whose preimage is thirty-two bytes `0x11`: well
formed, but not the committed secret. -/
def sampleClaimParams : ClaimParams :=
  { Preimage := "1111111111111111111111111111111111111111111111111111111111111111",
    Signer := ⟨"maker"⟩,
    OpeningTxHex := "0200ab" }

/-- Sample claim parameters whose preimage is not hexadecimal. -/
def sampleBadClaimParams : ClaimParams :=
  { Preimage := "xyz", Signer := ⟨"maker"⟩, OpeningTxHex := "0200ab" }

/-- The sample taker's signer. -/
def sampleTakerSigner : Signer := ⟨"taker-key"⟩

/-! ## How the steps of an operation unfold -/

theorem call_bind {α β : Type} (answer : List Event → Except Error α)
    (ev : Except Error α → Event) (f : α → Exec β) (h : List Event) :
    (call answer ev >>= f) h =
      match answer h with
      | .ok a => f a (h ++ [ev (.ok a)])
      | .error e => (Outcome.err e, h ++ [ev (.error e)]) := by
  show Exec.bind (call answer ev) f h = _
  unfold Exec.bind call
  cases answer h <;> rfl

theorem step_bind {α β : Type} (r : Except Error α) (f : α → Exec β) (h : List Event) :
    (step r >>= f) h =
      match r with
      | .ok a => f a h
      | .error e => (Outcome.err e, h) := by
  show Exec.bind (step r) f h = _
  unfold Exec.bind step
  cases r <;> rfl

theorem callPure_bind {α β : Type} (a : α) (ev : α → Event) (f : α → Exec β) (h : List Event) :
    (callPure a ev >>= f) h = f a (h ++ [ev a]) := rfl

theorem setWitness_bind {β : Type} (tx : MsgTx) (w : List Bytes) (f : MsgTx → Exec β)
    (h : List Event) :
    (setWitness tx w >>= f) h =
      match tx.withWitness w with
      | none => (Outcome.panic, h)
      | some signed => f signed h := by
  show Exec.bind (setWitness tx w) f h = _
  unfold Exec.bind setWitness
  cases tx.withWitness w <;> rfl

theorem pure_apply {α : Type} (a : α) (h : List Event) :
    (pure a : Exec α) h = (Outcome.ok a, h) := rfl

theorem NewAddress_bind {β : Type} (l : Client) (f : String → Exec β) (h : List Event) :
    (l.NewAddress >>= f) h =
      match l.lndClient.NewAddress h ⟨AddressType.WITNESS_PUBKEY_HASH⟩ with
      | .ok a => f a.Address (h ++ [Event.NewAddress ⟨AddressType.WITNESS_PUBKEY_HASH⟩ (.ok a)])
      | .error e =>
        (Outcome.err e, h ++ [Event.NewAddress ⟨AddressType.WITNESS_PUBKEY_HASH⟩ (.error e)]) := by
  show Exec.bind l.NewAddress f h = _
  unfold Exec.bind Client.NewAddress
  rw [call_bind]
  cases l.lndClient.NewAddress h ⟨AddressType.WITNESS_PUBKEY_HASH⟩ <;> rfl

theorem GetRefundFee_bind {β : Type} (l : Client) (f : Nat → Exec β) (h : List Event) :
    (l.GetRefundFee >>= f) h =
      match l.bitcoinOnChain.GetFee h 250 with
      | .ok a => f a (h ++ [Event.GetFee 250 (.ok a)])
      | .error e => (Outcome.err e, h ++ [Event.GetFee 250 (.error e)]) := by
  unfold Client.GetRefundFee
  rw [call_bind]
  cases l.bitcoinOnChain.GetFee h 250 <;> rfl

/-! ## `encoding/hex` round trip -/

theorem stringBytes_hextable (n : Fin 16) (cs : List Char) :
    stringBytes (String.mk (hextable n :: cs)) =
      Fin.ofNat (hextable n).toNat :: stringBytes (String.mk cs) := by
  have h : ∀ n : Fin 16, (String.utf8EncodeChar (hextable n)).map
      (fun b => (Fin.ofNat b.toNat : Byte)) = [Fin.ofNat (hextable n).toNat] := by decide
  simp [stringBytes, h]

theorem fromHexChar_hextable (n : Fin 16) :
    fromHexChar (Fin.ofNat (hextable n).toNat) = some n := by
  revert n
  decide

theorem joinNibbles_hi_lo (v : Byte) : joinNibbles (hiNibble v) (loNibble v) = v := by
  apply Fin.ext
  simp only [joinNibbles, hiNibble, loNibble]
  omega

theorem hexDecodeBytes_hexEncodeChars (bs : Bytes) :
    hexDecodeBytes (stringBytes (String.mk (hexEncodeChars bs))) = .ok bs := by
  induction bs with
  | nil => rfl
  | cons v rest ih =>
    simp [hexEncodeChars, stringBytes_hextable, hexDecodeBytes, fromHexChar_hextable, ih,
      joinNibbles_hi_lo]

theorem hexDecodeString_hexEncodeToString (bs : Bytes) :
    hexDecodeString (hexEncodeToString bs) = .ok bs := by
  simp [hexDecodeString, hexEncodeToString, hexDecodeBytes_hexEncodeChars]
/-! ## The relative timelock handed to the builder -/

/-- C2: every call of `PrepareSpendingTransaction` made by
`CreateCsvSpendingTransaction` carries the relative timelock `onchain.BitcoinCsv`,
which is 1008 and not 0; every such call made by the preimage path or by the
cooperative path carries 0. -/
theorem csv_path_hands_BitcoinCsv (pk : Packages) (l : Client) (sp : OpeningParams)
    (cp : ClaimParams) (takerSigner : Signer) :
    (∀ ev ∈ (l.CreateCsvSpendingTransaction pk sp cp).run.2, ∀ c, ev.csvArg = some c →
      c = BitcoinCsv ∧ c = 1008 ∧ c ≠ 0) ∧
    (∀ ev ∈ (l.CreatePreimageSpendingTransaction pk sp cp).run.2, ∀ c, ev.csvArg = some c →
      c = 0) ∧
    (∀ ev ∈ (l.CreateCoopSpendingTransaction pk sp cp takerSigner).run.2, ∀ c,
      ev.csvArg = some c → c = 0) := by
  refine ⟨?_, ?_, ?_⟩
  · simp only [Client.CreateCsvSpendingTransaction, Exec.run, call_bind, step_bind,
      callPure_bind, setWitness_bind, NewAddress_bind, pure_apply]
    repeat' split
    all_goals simp only [List.nil_append, List.cons_append, List.append_assoc,
      List.forall_mem_cons]
    all_goals simp [Event.csvArg, BitcoinCsv]
  · simp only [Client.CreatePreimageSpendingTransaction, Exec.run, call_bind, step_bind,
      callPure_bind, setWitness_bind, NewAddress_bind, pure_apply]
    repeat' split
    all_goals simp only [List.nil_append, List.cons_append, List.append_assoc,
      List.forall_mem_cons]
    all_goals simp [Event.csvArg, BitcoinCsv]
  · simp only [Client.CreateCoopSpendingTransaction, Exec.run, call_bind, step_bind,
      callPure_bind, setWitness_bind, NewAddress_bind, GetRefundFee_bind, pure_apply]
    repeat' split
    all_goals simp only [List.nil_append, List.cons_append, List.append_assoc,
      List.forall_mem_cons]
    all_goals simp [Event.csvArg, BitcoinCsv]

/-- C2 on the sample world: the timeout path reaches the builder, and the call it
makes carries 1008. -/
theorem csv_path_hands_BitcoinCsv_witness :
    Event.PrepareSpendingTransaction sampleOpeningParams sampleClaimParams "bcrt1qfresh" 1 1008 0
        (.ok (sampleSpendingTx 100000 1 1008 0, [170, 187], [99])) ∈
      ((sampleClient true).CreateCsvSpendingTransaction samplePackages sampleOpeningParams
        sampleClaimParams).run.2 ∧
    (1008 = BitcoinCsv ∧ 1008 = 1008 ∧ 1008 ≠ 0) :=
  ⟨by decide,
   (csv_path_hands_BitcoinCsv samplePackages (sampleClient true) sampleOpeningParams
      sampleClaimParams sampleTakerSigner).1
      (Event.PrepareSpendingTransaction sampleOpeningParams sampleClaimParams "bcrt1qfresh" 1
        1008 0 (.ok (sampleSpendingTx 100000 1 1008 0, [170, 187], [99])))
      (by decide) 1008 rfl⟩

/-! ## The funding request -/

/-- C7: when the swap address is derived, `CreateOpeningTransaction` sends
`FundPsbt` a raw template whose only output maps that address to
`swapParams.Amount`, with a confirmation target of 3 blocks rather than a fee
rate; it sends no other funding request. -/
theorem funding_request_shape (pk : Packages) (l : Client) (sp : OpeningParams) (addr : String)
    (haddr : l.bitcoinOnChain.CreateOpeningAddress [] sp BitcoinCsv = .ok addr) :
    (∃ res, (l.CreateOpeningTransaction pk sp).run.2.get? 1 =
      some (Event.FundPsbt
        { Template := FundPsbtRequest_Template.Raw { Inputs := [], Outputs := [(addr, sp.Amount)] },
          Fees := FundPsbtRequest_Fees.TargetConf 3 } res)) ∧
    (∀ ev ∈ (l.CreateOpeningTransaction pk sp).run.2, ∀ req, ev.fundPsbtArg = some req →
      req.Template = FundPsbtRequest_Template.Raw { Inputs := [], Outputs := [(addr, sp.Amount)] } ∧
      req.Fees = FundPsbtRequest_Fees.TargetConf 3) := by
  simp only [Client.CreateOpeningTransaction, Exec.run, call_bind, step_bind, pure_apply, haddr]
  constructor
  · repeat' split
    all_goals simp
  · repeat' split
    all_goals simp only [List.nil_append, List.cons_append, List.append_assoc,
      List.forall_mem_cons]
    all_goals simp [Event.fundPsbtArg]

/-- C7 on the sample world. -/
theorem funding_request_shape_witness :
    (∃ res, ((sampleClient true).CreateOpeningTransaction samplePackages
        sampleOpeningParams).run.2.get? 1 =
      some (Event.FundPsbt
        { Template := FundPsbtRequest_Template.Raw
            { Inputs := [], Outputs := [("bcrt1qswap", 100000)] },
          Fees := FundPsbtRequest_Fees.TargetConf 3 } res)) :=
  (funding_request_shape samplePackages (sampleClient true) sampleOpeningParams "bcrt1qswap"
    rfl).1

/-! ## Verification of the opening transaction -/

theorem onlyAfter_sound (gate guarded : Event → Bool) (log : List Event)
    (h : onlyAfter gate guarded log = true) :
    ∀ pre ev post, log = pre ++ ev :: post → guarded ev = true → ∃ g ∈ pre, gate g = true := by
  induction log with
  | nil =>
    intro pre ev post hlog
    simp at hlog
  | cons x xs ih =>
    intro pre ev post hlog hg
    simp only [onlyAfter, Bool.and_eq_true, Bool.not_eq_true', Bool.or_eq_true] at h
    cases pre with
    | nil =>
      simp only [List.nil_append, List.cons.injEq] at hlog
      rw [← hlog.1, h.1] at hg
      cases hg
    | cons y ys =>
      simp only [List.cons_append, List.cons.injEq] at hlog
      obtain ⟨hxy, hrest⟩ := hlog
      subst hxy
      rcases h.2 with hgate | hscan
      · exact ⟨x, List.mem_cons_self _ _, hgate⟩
      · obtain ⟨g, hmem, hgg⟩ := ih hscan ys ev post hrest hg
        exact ⟨g, List.mem_cons_of_mem _ hmem, hgg⟩

theorem isAcceptedVerify_elim (txHex : String) (params : OpeningParams) (g : Event)
    (h : g.isAcceptedVerify txHex params = true) :
    ∃ verified, g = Event.GetVoutAndVerify txHex params (.ok verified) := by
  cases g with
  | GetVoutAndVerify t p res =>
    cases res with
    | error e => simp [Event.isAcceptedVerify] at h
    | ok verified =>
      simp only [Event.isAcceptedVerify, decide_eq_true_eq] at h
      exact ⟨verified, by rw [h.1, h.2]⟩
  | _ => simp [Event.isAcceptedVerify] at h

theorem verifiedFirst_of_onlyAfter (txHex : String) (params : OpeningParams) (log : List Event)
    (h : onlyAfter (Event.isAcceptedVerify txHex params) Event.usesOpeningTx log = true) :
    VerifiedFirst txHex params log := by
  intro pre ev post hlog hg
  obtain ⟨g, hmem, hgate⟩ := onlyAfter_sound _ _ log h pre ev post hlog hg
  obtain ⟨verified, rfl⟩ := isAcceptedVerify_elim txHex params g hgate
  exact ⟨verified, hmem⟩

set_option maxHeartbeats 3200000 in
/-- C3: each of the three spend operations asks `GetVoutAndVerify` about
`claimParams.OpeningTxHex` and `swapParams`, and `CreateOpeningTransaction` asks
it about the finalized transaction. Whenever it rejects, the operation hands that
error back with zero or empty results and the run holds no `Signer.Sign` and no
`PublishTransaction`; whenever it accepts, the index handed to
`PrepareSpendingTransaction`, or reported as `vout`, is the index it gave. Every
`PrepareSpendingTransaction`, `Signer.Sign` and `PublishTransaction` of a spend
comes after an accepting answer (`VerifiedFirst`). The first four groups speak
of the recorded calls, the last four of the verifier's answer at the point where
the operation consults it. -/
theorem verification_gate (pk : Packages) (l : Client) (sp : OpeningParams) (cp : ClaimParams)
    (takerSigner : Signer) :
    ((∀ txHex params e, Event.GetVoutAndVerify txHex params (.error e) ∈
          (l.CreateOpeningTransaction pk sp).run.2 →
        returnedOpening (l.CreateOpeningTransaction pk sp).run.1 = some ("", 0, 0, some e) ∧
        ∀ ev ∈ (l.CreateOpeningTransaction pk sp).run.2,
          ev.isSign = false ∧ ev.isPublishTransaction = false) ∧
     (∀ txHex params txId vout, Event.GetVoutAndVerify txHex params (.ok (txId, vout)) ∈
          (l.CreateOpeningTransaction pk sp).run.2 →
        ∃ fee, returnedOpening (l.CreateOpeningTransaction pk sp).run.1 =
          some (txHex, fee, vout, none))) ∧
    ((∀ txHex params e, Event.GetVoutAndVerify txHex params (.error e) ∈
          (l.CreatePreimageSpendingTransaction pk sp cp).run.2 →
        returnedSpend (l.CreatePreimageSpendingTransaction pk sp cp).run.1 =
          some ("", "", some e) ∧
        ∀ ev ∈ (l.CreatePreimageSpendingTransaction pk sp cp).run.2,
          ev.isSign = false ∧ ev.isPublishTransaction = false) ∧
     (∀ txHex params txId vout, Event.GetVoutAndVerify txHex params (.ok (txId, vout)) ∈
          (l.CreatePreimageSpendingTransaction pk sp cp).run.2 →
        ∀ ev ∈ (l.CreatePreimageSpendingTransaction pk sp cp).run.2, ∀ w,
          ev.voutArg = some w → w = vout)) ∧
    ((∀ txHex params e, Event.GetVoutAndVerify txHex params (.error e) ∈
          (l.CreateCsvSpendingTransaction pk sp cp).run.2 →
        returnedSpend (l.CreateCsvSpendingTransaction pk sp cp).run.1 = some ("", "", some e) ∧
        ∀ ev ∈ (l.CreateCsvSpendingTransaction pk sp cp).run.2,
          ev.isSign = false ∧ ev.isPublishTransaction = false) ∧
     (∀ txHex params txId vout, Event.GetVoutAndVerify txHex params (.ok (txId, vout)) ∈
          (l.CreateCsvSpendingTransaction pk sp cp).run.2 →
        ∀ ev ∈ (l.CreateCsvSpendingTransaction pk sp cp).run.2, ∀ w,
          ev.voutArg = some w → w = vout)) ∧
    ((∀ txHex params e, Event.GetVoutAndVerify txHex params (.error e) ∈
          (l.CreateCoopSpendingTransaction pk sp cp takerSigner).run.2 →
        returnedSpend (l.CreateCoopSpendingTransaction pk sp cp takerSigner).run.1 =
          some ("", "", some e) ∧
        ∀ ev ∈ (l.CreateCoopSpendingTransaction pk sp cp takerSigner).run.2,
          ev.isSign = false ∧ ev.isPublishTransaction = false) ∧
     (∀ txHex params txId vout, Event.GetVoutAndVerify txHex params (.ok (txId, vout)) ∈
          (l.CreateCoopSpendingTransaction pk sp cp takerSigner).run.2 →
        ∀ ev ∈ (l.CreateCoopSpendingTransaction pk sp cp takerSigner).run.2, ∀ w,
          ev.voutArg = some w → w = vout)) ∧
    ((∀ e, l.bitcoinOnChain.GetVoutAndVerify [] cp.OpeningTxHex sp = .error e →
        returnedSpend (l.CreatePreimageSpendingTransaction pk sp cp).run.1 =
          some ("", "", some e) ∧
        (l.CreatePreimageSpendingTransaction pk sp cp).run.2 =
          [Event.GetVoutAndVerify cp.OpeningTxHex sp (.error e)]) ∧
     (∀ verified, l.bitcoinOnChain.GetVoutAndVerify [] cp.OpeningTxHex sp = .ok verified →
        (l.CreatePreimageSpendingTransaction pk sp cp).run.2.head? =
          some (Event.GetVoutAndVerify cp.OpeningTxHex sp (.ok verified)) ∧
        ∀ ev ∈ (l.CreatePreimageSpendingTransaction pk sp cp).run.2, ∀ w,
          ev.voutArg = some w → w = verified.2) ∧
     VerifiedFirst cp.OpeningTxHex sp (l.CreatePreimageSpendingTransaction pk sp cp).run.2) ∧
    ((∀ addr e, l.lndClient.NewAddress [] ⟨AddressType.WITNESS_PUBKEY_HASH⟩ = .ok addr →
        l.bitcoinOnChain.GetVoutAndVerify
          [Event.NewAddress ⟨AddressType.WITNESS_PUBKEY_HASH⟩ (.ok addr)]
          cp.OpeningTxHex sp = .error e →
        returnedSpend (l.CreateCsvSpendingTransaction pk sp cp).run.1 = some ("", "", some e) ∧
        (l.CreateCsvSpendingTransaction pk sp cp).run.2 =
          [Event.NewAddress ⟨AddressType.WITNESS_PUBKEY_HASH⟩ (.ok addr),
           Event.GetVoutAndVerify cp.OpeningTxHex sp (.error e)]) ∧
     (∀ addr verified, l.lndClient.NewAddress [] ⟨AddressType.WITNESS_PUBKEY_HASH⟩ = .ok addr →
        l.bitcoinOnChain.GetVoutAndVerify
          [Event.NewAddress ⟨AddressType.WITNESS_PUBKEY_HASH⟩ (.ok addr)]
          cp.OpeningTxHex sp = .ok verified →
        (l.CreateCsvSpendingTransaction pk sp cp).run.2.get? 1 =
          some (Event.GetVoutAndVerify cp.OpeningTxHex sp (.ok verified)) ∧
        ∀ ev ∈ (l.CreateCsvSpendingTransaction pk sp cp).run.2, ∀ w,
          ev.voutArg = some w → w = verified.2) ∧
     VerifiedFirst cp.OpeningTxHex sp (l.CreateCsvSpendingTransaction pk sp cp).run.2) ∧
    ((∀ addr refundFee e,
        l.lndClient.NewAddress [] ⟨AddressType.WITNESS_PUBKEY_HASH⟩ = .ok addr →
        l.bitcoinOnChain.GetFee [Event.NewAddress ⟨AddressType.WITNESS_PUBKEY_HASH⟩ (.ok addr)]
          250 = .ok refundFee →
        l.bitcoinOnChain.GetVoutAndVerify
          [Event.NewAddress ⟨AddressType.WITNESS_PUBKEY_HASH⟩ (.ok addr),
           Event.GetFee 250 (.ok refundFee)]
          cp.OpeningTxHex sp = .error e →
        returnedSpend (l.CreateCoopSpendingTransaction pk sp cp takerSigner).run.1 =
          some ("", "", some e) ∧
        (l.CreateCoopSpendingTransaction pk sp cp takerSigner).run.2 =
          [Event.NewAddress ⟨AddressType.WITNESS_PUBKEY_HASH⟩ (.ok addr),
           Event.GetFee 250 (.ok refundFee),
           Event.GetVoutAndVerify cp.OpeningTxHex sp (.error e)]) ∧
     (∀ addr refundFee verified,
        l.lndClient.NewAddress [] ⟨AddressType.WITNESS_PUBKEY_HASH⟩ = .ok addr →
        l.bitcoinOnChain.GetFee [Event.NewAddress ⟨AddressType.WITNESS_PUBKEY_HASH⟩ (.ok addr)]
          250 = .ok refundFee →
        l.bitcoinOnChain.GetVoutAndVerify
          [Event.NewAddress ⟨AddressType.WITNESS_PUBKEY_HASH⟩ (.ok addr),
           Event.GetFee 250 (.ok refundFee)]
          cp.OpeningTxHex sp = .ok verified →
        (l.CreateCoopSpendingTransaction pk sp cp takerSigner).run.2.get? 2 =
          some (Event.GetVoutAndVerify cp.OpeningTxHex sp (.ok verified)) ∧
        ∀ ev ∈ (l.CreateCoopSpendingTransaction pk sp cp takerSigner).run.2, ∀ w,
          ev.voutArg = some w → w = verified.2) ∧
     VerifiedFirst cp.OpeningTxHex sp
       (l.CreateCoopSpendingTransaction pk sp cp takerSigner).run.2) ∧
    ((∀ ev ∈ (l.CreateOpeningTransaction pk sp).run.2,
        ev.isSign = false ∧ ev.isPublishTransaction = false) ∧
     (∀ txHex fee vout, (l.CreateOpeningTransaction pk sp).run.1 = .ok (txHex, fee, vout) →
        ∃ txId, (l.CreateOpeningTransaction pk sp).run.2.getLast? =
          some (Event.GetVoutAndVerify txHex sp (.ok (txId, vout)))) ∧
     (∀ addr fundRes packet buf finalizeRes fee answer,
        l.bitcoinOnChain.CreateOpeningAddress [] sp BitcoinCsv = .ok addr →
        l.walletClient.FundPsbt [Event.CreateOpeningAddress sp BitcoinCsv (.ok addr)]
          ⟨FundPsbtRequest_Template.Raw ⟨[], [(addr, sp.Amount)]⟩,
           FundPsbtRequest_Fees.TargetConf 3⟩ = .ok fundRes →
        pk.psbtNewFromRawBytes fundRes.FundedPsbt = .ok packet →
        pk.psbtSerialize packet = .ok buf →
        l.walletClient.FinalizePsbt
          [Event.CreateOpeningAddress sp BitcoinCsv (.ok addr),
           Event.FundPsbt ⟨FundPsbtRequest_Template.Raw ⟨[], [(addr, sp.Amount)]⟩,
             FundPsbtRequest_Fees.TargetConf 3⟩ (.ok fundRes)]
          ⟨buf⟩ = .ok finalizeRes →
        GetFeeSatsFromTx pk l.bitcoinOnChain (base64EncodeToString finalizeRes.SignedPsbt)
          (hexEncodeToString finalizeRes.RawFinalTx) = .ok fee →
        l.bitcoinOnChain.GetVoutAndVerify
          [Event.CreateOpeningAddress sp BitcoinCsv (.ok addr),
           Event.FundPsbt ⟨FundPsbtRequest_Template.Raw ⟨[], [(addr, sp.Amount)]⟩,
             FundPsbtRequest_Fees.TargetConf 3⟩ (.ok fundRes),
           Event.FinalizePsbt ⟨buf⟩ (.ok finalizeRes),
           Event.GetFeeSatsFromTx (base64EncodeToString finalizeRes.SignedPsbt)
             (hexEncodeToString finalizeRes.RawFinalTx) (.ok fee)]
          (hexEncodeToString finalizeRes.RawFinalTx) sp = answer →
        returnedOpening (l.CreateOpeningTransaction pk sp).run.1 =
          match answer with
          | .ok verified =>
            some (hexEncodeToString finalizeRes.RawFinalTx, fee, verified.2, none)
          | .error e => some ("", 0, 0, some e))) := by
  refine ⟨⟨?_, ?_⟩, ⟨?_, ?_⟩, ⟨?_, ?_⟩, ⟨?_, ?_⟩, ⟨?_, ?_, ?_⟩, ⟨?_, ?_, ?_⟩, ⟨?_, ?_, ?_⟩,
    ⟨?_, ?_, ?_⟩⟩
  · simp only [Client.CreateOpeningTransaction, Exec.run, call_bind, step_bind, pure_apply]
    repeat' split
    all_goals simp only [List.nil_append, List.cons_append, List.append_assoc,
      List.forall_mem_cons]
    all_goals simp_all [returnedOpening, Event.isSign, Event.isPublishTransaction]
  · simp only [Client.CreateOpeningTransaction, Exec.run, call_bind, step_bind, pure_apply]
    repeat' split
    all_goals simp_all [returnedOpening]
    all_goals (intros; subst_vars; rfl)
  · simp only [Client.CreatePreimageSpendingTransaction, Exec.run, call_bind, step_bind,
      callPure_bind, setWitness_bind, NewAddress_bind, pure_apply]
    repeat' split
    all_goals simp only [List.nil_append, List.cons_append, List.append_assoc,
      List.forall_mem_cons]
    all_goals simp_all [returnedSpend, Event.isSign, Event.isPublishTransaction]
  · simp only [Client.CreatePreimageSpendingTransaction, Exec.run, call_bind, step_bind,
      callPure_bind, setWitness_bind, NewAddress_bind, pure_apply]
    repeat' split
    all_goals simp only [List.nil_append, List.cons_append, List.append_assoc,
      List.forall_mem_cons]
    all_goals simp_all [Event.voutArg]
    all_goals (intros; subst_vars; rfl)
  · simp only [Client.CreateCsvSpendingTransaction, Exec.run, call_bind, step_bind,
      callPure_bind, setWitness_bind, NewAddress_bind, pure_apply]
    repeat' split
    all_goals simp only [List.nil_append, List.cons_append, List.append_assoc,
      List.forall_mem_cons]
    all_goals simp_all [returnedSpend, Event.isSign, Event.isPublishTransaction]
  · simp only [Client.CreateCsvSpendingTransaction, Exec.run, call_bind, step_bind,
      callPure_bind, setWitness_bind, NewAddress_bind, pure_apply]
    repeat' split
    all_goals simp only [List.nil_append, List.cons_append, List.append_assoc,
      List.forall_mem_cons]
    all_goals simp_all [Event.voutArg]
    all_goals (intros; subst_vars; rfl)
  · simp only [Client.CreateCoopSpendingTransaction, Exec.run, call_bind, step_bind,
      callPure_bind, setWitness_bind, NewAddress_bind, GetRefundFee_bind, pure_apply]
    repeat' split
    all_goals simp only [List.nil_append, List.cons_append, List.append_assoc,
      List.forall_mem_cons]
    all_goals simp_all [returnedSpend, Event.isSign, Event.isPublishTransaction]
  · simp only [Client.CreateCoopSpendingTransaction, Exec.run, call_bind, step_bind,
      callPure_bind, setWitness_bind, NewAddress_bind, GetRefundFee_bind, pure_apply]
    repeat' split
    all_goals simp only [List.nil_append, List.cons_append, List.append_assoc,
      List.forall_mem_cons]
    all_goals simp_all [Event.voutArg]
    all_goals (intros; subst_vars; rfl)
  · intro e h
    simp [Client.CreatePreimageSpendingTransaction, Exec.run, call_bind, h, returnedSpend]
  · intro verified h
    simp only [Client.CreatePreimageSpendingTransaction, Exec.run, call_bind, step_bind,
      callPure_bind, setWitness_bind, NewAddress_bind, pure_apply, h]
    repeat' split
    all_goals simp only [List.nil_append, List.cons_append, List.append_assoc,
      List.forall_mem_cons]
    all_goals simp [Event.voutArg]
  · have hscan : onlyAfter (Event.isAcceptedVerify cp.OpeningTxHex sp) Event.usesOpeningTx
        (l.CreatePreimageSpendingTransaction pk sp cp).run.2 = true := by
      simp only [Client.CreatePreimageSpendingTransaction, Exec.run, call_bind, step_bind,
        callPure_bind, setWitness_bind, NewAddress_bind, pure_apply]
      repeat' split
      all_goals simp [onlyAfter, Event.isAcceptedVerify, Event.usesOpeningTx]
    exact verifiedFirst_of_onlyAfter _ _ _ hscan
  · intro addr e h1 h2
    simp [Client.CreateCsvSpendingTransaction, Exec.run, call_bind, NewAddress_bind, h1, h2,
      returnedSpend]
  · intro addr verified h1 h2
    simp only [Client.CreateCsvSpendingTransaction, Exec.run, call_bind, step_bind,
      callPure_bind, setWitness_bind, NewAddress_bind, pure_apply, h1, List.nil_append, h2]
    repeat' split
    all_goals simp only [List.nil_append, List.cons_append, List.append_assoc,
      List.forall_mem_cons]
    all_goals simp [Event.voutArg]
  · have hscan : onlyAfter (Event.isAcceptedVerify cp.OpeningTxHex sp) Event.usesOpeningTx
        (l.CreateCsvSpendingTransaction pk sp cp).run.2 = true := by
      simp only [Client.CreateCsvSpendingTransaction, Exec.run, call_bind, step_bind,
        callPure_bind, setWitness_bind, NewAddress_bind, pure_apply]
      repeat' split
      all_goals simp [onlyAfter, Event.isAcceptedVerify, Event.usesOpeningTx]
    exact verifiedFirst_of_onlyAfter _ _ _ hscan
  · intro addr refundFee e h1 h2 h3
    simp [Client.CreateCoopSpendingTransaction, Exec.run, call_bind, NewAddress_bind,
      GetRefundFee_bind, h1, h2, h3, returnedSpend]
  · intro addr refundFee verified h1 h2 h3
    simp only [Client.CreateCoopSpendingTransaction, Exec.run, call_bind, step_bind,
      callPure_bind, setWitness_bind, NewAddress_bind, GetRefundFee_bind, pure_apply, h1,
      List.nil_append, h2, List.cons_append, h3]
    repeat' split
    all_goals simp only [List.nil_append, List.cons_append, List.append_assoc,
      List.forall_mem_cons]
    all_goals simp [Event.voutArg]
  · have hscan : onlyAfter (Event.isAcceptedVerify cp.OpeningTxHex sp) Event.usesOpeningTx
        (l.CreateCoopSpendingTransaction pk sp cp takerSigner).run.2 = true := by
      simp only [Client.CreateCoopSpendingTransaction, Exec.run, call_bind, step_bind,
        callPure_bind, setWitness_bind, NewAddress_bind, GetRefundFee_bind, pure_apply]
      repeat' split
      all_goals simp [onlyAfter, Event.isAcceptedVerify, Event.usesOpeningTx]
    exact verifiedFirst_of_onlyAfter _ _ _ hscan
  · simp only [Client.CreateOpeningTransaction, Exec.run, call_bind, step_bind, pure_apply]
    repeat' split
    all_goals simp only [List.nil_append, List.cons_append, List.append_assoc,
      List.forall_mem_cons]
    all_goals simp [Event.isSign, Event.isPublishTransaction]
  · simp only [Client.CreateOpeningTransaction, Exec.run, call_bind, step_bind, pure_apply]
    repeat' split
    all_goals simp only [List.nil_append, List.cons_append, List.append_assoc]
    all_goals simp
    exact ⟨_, rfl⟩
  · intro addr fundRes packet buf finalizeRes fee answer h1 h2 h3 h4 h5 h6 h7
    cases answer with
    | error e =>
      simp [Client.CreateOpeningTransaction, Exec.run, call_bind, step_bind, pure_apply, h1,
        h2, h3, h4, h5, h6, h7, returnedOpening]
    | ok verified =>
      simp [Client.CreateOpeningTransaction, Exec.run, call_bind, step_bind, pure_apply, h1,
        h2, h3, h4, h5, h6, h7, returnedOpening]

/-- C3 on the sample world with a rejecting verifier: the timeout path is handed
an address, asks the verifier, and hands its rejection back with nothing signed
or published. -/
theorem verification_gate_witness :
    sampleLnd.NewAddress [] ⟨AddressType.WITNESS_PUBKEY_HASH⟩ = .ok ⟨"bcrt1qfresh"⟩ ∧
    (sampleChain false).GetVoutAndVerify
      [Event.NewAddress ⟨AddressType.WITNESS_PUBKEY_HASH⟩ (.ok ⟨"bcrt1qfresh"⟩)]
      sampleClaimParams.OpeningTxHex sampleOpeningParams =
        .error ⟨"tx does not contain expected output"⟩ ∧
    returnedSpend ((sampleClient false).CreateCsvSpendingTransaction samplePackages
        sampleOpeningParams sampleClaimParams).run.1 =
      some ("", "", some ⟨"tx does not contain expected output"⟩) ∧
    ((sampleClient false).CreateCsvSpendingTransaction samplePackages sampleOpeningParams
        sampleClaimParams).run.2 =
      [Event.NewAddress ⟨AddressType.WITNESS_PUBKEY_HASH⟩ (.ok ⟨"bcrt1qfresh"⟩),
       Event.GetVoutAndVerify sampleClaimParams.OpeningTxHex sampleOpeningParams
         (.error ⟨"tx does not contain expected output"⟩)] :=
  ⟨rfl, rfl,
   (verification_gate samplePackages (sampleClient false) sampleOpeningParams sampleClaimParams
      sampleTakerSigner).2.2.2.2.2.1.1 ⟨"bcrt1qfresh"⟩ ⟨"tx does not contain expected output"⟩
      rfl rfl⟩

/-! ## Broadcasting the opening transaction -/

/-- C8: `BroadcastOpeningTx` fails exactly when the hexadecimal decoding, the
deserialisation or `PublishTransaction` fails, and then hands back that step's
error with empty `txId` and `txHex`; `PublishTransaction` is called at most once
and not at all when decoding failed; on success the hash of the decoded
transaction and the input string are handed back. -/
theorem broadcast_opening_tx_outcomes (pk : Packages) (l : Client) (unpreparedTxHex : String) :
    (∀ e, hexDecodeString unpreparedTxHex = .error e →
      returnedSpend (l.BroadcastOpeningTx pk unpreparedTxHex).run.1 = some ("", "", some e) ∧
      (l.BroadcastOpeningTx pk unpreparedTxHex).run.2 = []) ∧
    (∀ txBytes e, hexDecodeString unpreparedTxHex = .ok txBytes →
      pk.txDeserialize txBytes = .error e →
      returnedSpend (l.BroadcastOpeningTx pk unpreparedTxHex).run.1 = some ("", "", some e) ∧
      (l.BroadcastOpeningTx pk unpreparedTxHex).run.2 = []) ∧
    (∀ txBytes openingTx e, hexDecodeString unpreparedTxHex = .ok txBytes →
      pk.txDeserialize txBytes = .ok openingTx →
      l.walletClient.PublishTransaction [] ⟨txBytes⟩ = .error e →
      returnedSpend (l.BroadcastOpeningTx pk unpreparedTxHex).run.1 = some ("", "", some e) ∧
      (l.BroadcastOpeningTx pk unpreparedTxHex).run.2 =
        [Event.PublishTransaction ⟨txBytes⟩ (.error e)]) ∧
    (∀ txBytes openingTx res, hexDecodeString unpreparedTxHex = .ok txBytes →
      pk.txDeserialize txBytes = .ok openingTx →
      l.walletClient.PublishTransaction [] ⟨txBytes⟩ = .ok res →
      returnedSpend (l.BroadcastOpeningTx pk unpreparedTxHex).run.1 =
        some (pk.txHash openingTx, unpreparedTxHex, none) ∧
      (l.BroadcastOpeningTx pk unpreparedTxHex).run.2 =
        [Event.PublishTransaction ⟨txBytes⟩ (.ok res)]) ∧
    (((l.BroadcastOpeningTx pk unpreparedTxHex).run.2.filter
        Event.isPublishTransaction).length ≤ 1) ∧
    ((∃ e, returnedSpend (l.BroadcastOpeningTx pk unpreparedTxHex).run.1 =
        some ("", "", some e)) ↔
      ((∃ e, hexDecodeString unpreparedTxHex = .error e) ∨
       (∃ txBytes e, hexDecodeString unpreparedTxHex = .ok txBytes ∧
          pk.txDeserialize txBytes = .error e) ∨
       (∃ txBytes e, hexDecodeString unpreparedTxHex = .ok txBytes ∧
          l.walletClient.PublishTransaction [] ⟨txBytes⟩ = .error e ∧
          ∃ openingTx, pk.txDeserialize txBytes = .ok openingTx))) := by
  simp only [Client.BroadcastOpeningTx, Exec.run, call_bind, step_bind, pure_apply]
  refine ⟨?_, ?_, ?_, ?_, ?_, ?_⟩
  · intro e h
    simp [h, returnedSpend]
  · intro b e h1 h2
    simp [h1, h2, returnedSpend]
  · intro b tx e h1 h2 h3
    simp [h1, h2, h3, returnedSpend]
  · intro b tx res h1 h2 h3
    simp [h1, h2, h3, returnedSpend]
  · repeat' split
    all_goals simp [Event.isPublishTransaction]
  · repeat' split
    all_goals simp_all [returnedSpend]

/-- C8 on the sample world: a string that is not hexadecimal is refused without
any call to the wallet. -/
theorem broadcast_opening_tx_outcomes_witness :
    hexDecodeString "0g" = .error (InvalidByteError 103) ∧
    returnedSpend ((sampleClient true).BroadcastOpeningTx samplePackages "0g").run.1 =
      some ("", "", some (InvalidByteError 103)) ∧
    ((sampleClient true).BroadcastOpeningTx samplePackages "0g").run.2 = [] :=
  ⟨by decide,
   (broadcast_opening_tx_outcomes samplePackages (sampleClient true) "0g").1
     (InvalidByteError 103) (by decide)⟩

/-! ## The fee reported for the opening transaction -/

/-- C5: when `CreateOpeningTransaction` succeeds, the hex it hands back encodes
the `RawFinalTx` of the wallet's `FinalizePsbt` answer, and the fee it reports is
what `GetFeeSatsFromTx` computes from the base64 of the `SignedPsbt` and that
hex: the sum of the PSBT's input values less the sum of the output values of that
same raw transaction. The estimator `GetFee` behind `GetRefundFee` and
`GetFlatSwapOutFee` is not called. -/
theorem opening_reports_realized_fee (pk : Packages) (l : Client) (sp : OpeningParams)
    (txHex : String) (fee vout : Nat)
    (hok : (l.CreateOpeningTransaction pk sp).run.1 = .ok (txHex, fee, vout)) :
    ∃ (finalizeReq : FinalizePsbtRequest) (finalizeRes : FinalizePsbtResponse) (ins : List Nat)
      (finalTx : MsgTx),
      Event.FinalizePsbt finalizeReq (.ok finalizeRes) ∈ (l.CreateOpeningTransaction pk sp).run.2 ∧
      txHex = hexEncodeToString finalizeRes.RawFinalTx ∧
      Event.GetFeeSatsFromTx (base64EncodeToString finalizeRes.SignedPsbt) txHex (.ok fee) ∈
        (l.CreateOpeningTransaction pk sp).run.2 ∧
      l.bitcoinOnChain.psbtInputValues (base64EncodeToString finalizeRes.SignedPsbt) = .ok ins ∧
      pk.txDeserialize finalizeRes.RawFinalTx = .ok finalTx ∧
      fee = ins.sum - (finalTx.TxOut.map WireTxOut.Value).sum ∧
      ∀ ev ∈ (l.CreateOpeningTransaction pk sp).run.2, ev.isGetFee = false := by
  revert hok
  simp only [Client.CreateOpeningTransaction, Exec.run, call_bind, step_bind, pure_apply]
  repeat' split
  all_goals simp only [List.nil_append, List.cons_append, List.append_assoc,
    List.forall_mem_cons]
  all_goals try (intro hok; simp at hok; done)
  rename_i hfee _ _ _
  intro hok
  simp only [Outcome.ok.injEq, Prod.mk.injEq] at hok
  obtain ⟨h1, h2, h3⟩ := hok
  subst h1 h2 h3
  simp only [GetFeeSatsFromTx, hexDecodeString_hexEncodeToString] at hfee
  split at hfee
  · simp at hfee
  · rename_i ins hins
    split at hfee
    · simp at hfee
    · rename_i tx htx
      simp only [Except.ok.injEq] at hfee
      refine ⟨_, _, ins, tx, List.Mem.tail _ (List.Mem.tail _ (List.Mem.head _)),
        ?_, ?_, ?_, ?_, ?_, ?_⟩
      · rfl
      · simp
      · exact hins
      · exact htx
      · exact hfee.symm
      · simp [Event.isGetFee]

/-- C5 on the sample world: inputs of 150000 sat, outputs of 49000 and 100000 sat,
a reported fee of 1000 sat. -/
theorem opening_reports_realized_fee_witness :
    ((sampleClient true).CreateOpeningTransaction samplePackages sampleOpeningParams).run.1 =
      .ok ("0200ab", 1000, 1) ∧
    ∃ (finalizeReq : FinalizePsbtRequest) (finalizeRes : FinalizePsbtResponse) (ins : List Nat)
      (finalTx : MsgTx),
      Event.FinalizePsbt finalizeReq (.ok finalizeRes) ∈
        ((sampleClient true).CreateOpeningTransaction samplePackages sampleOpeningParams).run.2 ∧
      "0200ab" = hexEncodeToString finalizeRes.RawFinalTx ∧
      Event.GetFeeSatsFromTx (base64EncodeToString finalizeRes.SignedPsbt) "0200ab" (.ok 1000) ∈
        ((sampleClient true).CreateOpeningTransaction samplePackages sampleOpeningParams).run.2 ∧
      (sampleClient true).bitcoinOnChain.psbtInputValues
        (base64EncodeToString finalizeRes.SignedPsbt) = .ok ins ∧
      samplePackages.txDeserialize finalizeRes.RawFinalTx = .ok finalTx ∧
      1000 = ins.sum - (finalTx.TxOut.map WireTxOut.Value).sum ∧
      ∀ ev ∈ ((sampleClient true).CreateOpeningTransaction samplePackages
        sampleOpeningParams).run.2, ev.isGetFee = false :=
  ⟨by decide,
   opening_reports_realized_fee samplePackages (sampleClient true) sampleOpeningParams "0200ab"
     1000 1 (by decide)⟩

/-! ## The witness of a spend -/

theorem preimage_length (p : Preimage) : p.val.length = 32 := p.property

/-- C6: a successful preimage spend made exactly the calls of
`PreimageSpendTrace`, in that order: the signature is over the sighash that
`PrepareSpendingTransaction` returned, and `GetPreimageWitness` receives
(signature, 32-byte preimage, redeem script of that same answer); a successful
cooperative spend made exactly the calls of `CoopSpendTrace`: `takerSigner` and
then `claimParams.Signer` sign the same sighash, and `GetCooperativeWitness`
receives (taker signature, maker signature, redeem script). The witness built
is set on input 0 of the prepared transaction, whose serialisation is what is
published and handed back in hex. -/
theorem witness_assembly_order (pk : Packages) (l : Client) (sp : OpeningParams)
    (cp : ClaimParams) (takerSigner : Signer) (txId txHex : String) :
    ((l.CreatePreimageSpendingTransaction pk sp cp).run.1 = .ok (txId, txHex) →
      PreimageSpendTrace pk sp cp txId txHex
        (l.CreatePreimageSpendingTransaction pk sp cp).run.2) ∧
    ((l.CreateCoopSpendingTransaction pk sp cp takerSigner).run.1 = .ok (txId, txHex) →
      CoopSpendTrace pk sp cp takerSigner txId txHex
        (l.CreateCoopSpendingTransaction pk sp cp takerSigner).run.2) := by
  constructor
  · simp only [Client.CreatePreimageSpendingTransaction, Exec.run, call_bind, step_bind,
      callPure_bind, setWitness_bind, NewAddress_bind, pure_apply, PreimageSpendTrace]
    repeat' split
    all_goals simp only [List.nil_append, List.cons_append, List.append_assoc]
    all_goals try (intro hok; simp at hok; done)
    intro hok
    simp only [Outcome.ok.injEq, Prod.mk.injEq] at hok
    rename_i hsigned _ _ hser _ _ _
    exact ⟨_, _, _, _, _, _, _, _, _, _, rfl, preimage_length _, hsigned, hser, hok.2.symm,
      hok.1.symm⟩
  · simp only [Client.CreateCoopSpendingTransaction, Exec.run, call_bind, step_bind,
      callPure_bind, setWitness_bind, NewAddress_bind, GetRefundFee_bind, pure_apply,
      CoopSpendTrace]
    repeat' split
    all_goals simp only [List.nil_append, List.cons_append, List.append_assoc]
    all_goals try (intro hok; simp at hok; done)
    intro hok
    simp only [Outcome.ok.injEq, Prod.mk.injEq] at hok
    rename_i hsigned _ _ hser _ _ _
    exact ⟨_, _, _, _, _, _, _, _, _, _, _, rfl, hsigned, hser, hok.2.symm, hok.1.symm⟩

/-- C6 on the sample world: the cooperative spend succeeds, the taker's
signature `[9, 2]` comes before the maker's `[5, 2]` in the published witness. -/
theorem witness_assembly_order_witness :
    ((sampleClient true).CreateCoopSpendingTransaction samplePackages sampleOpeningParams
        sampleClaimParams sampleTakerSigner).run.1 = .ok ("spendingtxid", "090205020163") ∧
    CoopSpendTrace samplePackages sampleOpeningParams sampleClaimParams sampleTakerSigner
      "spendingtxid" "090205020163"
      ((sampleClient true).CreateCoopSpendingTransaction samplePackages sampleOpeningParams
        sampleClaimParams sampleTakerSigner).run.2 :=
  ⟨by decide,
   (witness_assembly_order samplePackages (sampleClient true) sampleOpeningParams
      sampleClaimParams sampleTakerSigner "spendingtxid" "090205020163").2 (by decide)⟩

/-! ## The fee of a cooperative spend -/

set_option maxHeartbeats 1600000 in
/-- C4: `CreateCoopSpendingTransaction(swapParams, claimParams, takerSigner)` has
no parameter for a fee override, so the override of the rule "explicit value if
non-zero, else the flat estimate" is absent, the zero value, and the rule yields
the estimate: every fee handed to `PrepareSpendingTransaction` is
`specResolvedFee 0 estimate`, where `estimate` is the answer of the `GetFee(250)`
call that `GetRefundFee` made in the same run; the estimator is asked about no
other size. That fee fixes what both parties sign: every `Signer.Sign` of the
run, by `takerSigner` or by `claimParams.Signer`, is over the sighash that
`PrepareSpendingTransaction` answered to the call carrying that fee. -/
theorem coop_fee_resolution (pk : Packages) (l : Client) (sp : OpeningParams)
    (cp : ClaimParams) (takerSigner : Signer) :
    (∀ ev ∈ (l.CreateCoopSpendingTransaction pk sp cp takerSigner).run.2, ∀ fee,
      ev.preparedFeeArg = some fee →
      ∃ estimate,
        Event.GetFee 250 (.ok estimate) ∈
          (l.CreateCoopSpendingTransaction pk sp cp takerSigner).run.2 ∧
        fee = specResolvedFee 0 estimate) ∧
    (∀ txSize res,
      Event.GetFee txSize res ∈ (l.CreateCoopSpendingTransaction pk sp cp takerSigner).run.2 →
      txSize = 250) ∧
    (∀ addr estimate, l.lndClient.NewAddress [] ⟨AddressType.WITNESS_PUBKEY_HASH⟩ = .ok addr →
      l.bitcoinOnChain.GetFee [Event.NewAddress ⟨AddressType.WITNESS_PUBKEY_HASH⟩ (.ok addr)]
        250 = .ok estimate →
      (l.CreateCoopSpendingTransaction pk sp cp takerSigner).run.2.get? 1 =
        some (Event.GetFee 250 (.ok estimate)) ∧
      ∀ ev ∈ (l.CreateCoopSpendingTransaction pk sp cp takerSigner).run.2, ∀ fee,
        ev.preparedFeeArg = some fee → fee = specResolvedFee 0 estimate ∧ fee = estimate) ∧
    (∀ signer hash res,
      Event.Sign signer hash res ∈
        (l.CreateCoopSpendingTransaction pk sp cp takerSigner).run.2 →
      (signer = takerSigner ∨ signer = cp.Signer) ∧
      ∃ addr vout estimate tx redeemScript,
        Event.GetFee 250 (.ok estimate) ∈
          (l.CreateCoopSpendingTransaction pk sp cp takerSigner).run.2 ∧
        Event.PrepareSpendingTransaction sp cp addr vout 0 (specResolvedFee 0 estimate)
            (.ok (tx, hash, redeemScript)) ∈
          (l.CreateCoopSpendingTransaction pk sp cp takerSigner).run.2) := by
  refine ⟨?_, ?_, ?_, ?_⟩
  · simp only [Client.CreateCoopSpendingTransaction, Exec.run, call_bind, step_bind,
      callPure_bind, setWitness_bind, NewAddress_bind, GetRefundFee_bind, pure_apply]
    repeat' split
    all_goals simp only [List.nil_append, List.cons_append, List.append_assoc,
      List.forall_mem_cons]
    all_goals simp [Event.preparedFeeArg, specResolvedFee]
  · simp only [Client.CreateCoopSpendingTransaction, Exec.run, call_bind, step_bind,
      callPure_bind, setWitness_bind, NewAddress_bind, GetRefundFee_bind, pure_apply]
    repeat' split
    all_goals simp only [List.nil_append, List.cons_append, List.append_assoc]
    all_goals simp
  · intro addr estimate h1 h2
    simp only [Client.CreateCoopSpendingTransaction, Exec.run, call_bind, step_bind,
      callPure_bind, setWitness_bind, NewAddress_bind, GetRefundFee_bind, pure_apply, h1,
      List.nil_append, h2]
    repeat' split
    all_goals simp only [List.nil_append, List.cons_append, List.append_assoc,
      List.forall_mem_cons]
    all_goals simp [Event.preparedFeeArg, specResolvedFee]
  · simp only [Client.CreateCoopSpendingTransaction, Exec.run, call_bind, step_bind,
      callPure_bind, setWitness_bind, NewAddress_bind, GetRefundFee_bind, pure_apply]
    repeat' split
    all_goals simp only [List.nil_append, List.cons_append, List.append_assoc]
    all_goals simp [specResolvedFee]
    all_goals
      first
        | (intro signer hash res h
           rcases h with ⟨rfl, rfl, -⟩ | ⟨rfl, rfl, -⟩ <;> exact ⟨by simp, _, _, rfl⟩)
        | (intros
           subst_vars
           exact ⟨by simp, _, _, rfl⟩)

/-- C4 on the sample world: the estimator answers 250 for the size 250, and 250
is the fee handed to `PrepareSpendingTransaction`. -/
theorem coop_fee_resolution_witness :
    sampleLnd.NewAddress [] ⟨AddressType.WITNESS_PUBKEY_HASH⟩ = .ok ⟨"bcrt1qfresh"⟩ ∧
    (sampleChain true).GetFee
      [Event.NewAddress ⟨AddressType.WITNESS_PUBKEY_HASH⟩ (.ok ⟨"bcrt1qfresh"⟩)] 250 =
        .ok 250 ∧
    Event.PrepareSpendingTransaction sampleOpeningParams sampleClaimParams "bcrt1qfresh" 1 0 250
        (.ok (sampleSpendingTx 100000 1 0 250, [170, 187], [99])) ∈
      ((sampleClient true).CreateCoopSpendingTransaction samplePackages sampleOpeningParams
        sampleClaimParams sampleTakerSigner).run.2 ∧
    (250 = specResolvedFee 0 250 ∧ 250 = 250) :=
  ⟨rfl, rfl, by decide,
   ((coop_fee_resolution samplePackages (sampleClient true) sampleOpeningParams
      sampleClaimParams sampleTakerSigner).2.2.1 ⟨"bcrt1qfresh"⟩ 250 rfl rfl).2
      (Event.PrepareSpendingTransaction sampleOpeningParams sampleClaimParams "bcrt1qfresh" 1 0
        250 (.ok (sampleSpendingTx 100000 1 0 250, [170, 187], [99])))
      (by decide) 250 rfl⟩

/-! ## Publishing comes last -/

/-- C9, refuted on the sample world: the timeout path fails at the verification
of the opening transaction, before anything is published, and a fresh address
has by then been requested through `NewAddress`. -/
theorem csv_failure_after_NewAddress :
    ((sampleClient false).CreateCsvSpendingTransaction samplePackages sampleOpeningParams
        sampleClaimParams).run =
      (Outcome.err ⟨"tx does not contain expected output"⟩,
       [Event.NewAddress ⟨AddressType.WITNESS_PUBKEY_HASH⟩ (.ok ⟨"bcrt1qfresh"⟩),
        Event.GetVoutAndVerify "0200ab" sampleOpeningParams
          (.error ⟨"tx does not contain expected output"⟩)]) ∧
    (Event.NewAddress ⟨AddressType.WITNESS_PUBKEY_HASH⟩ (.ok ⟨"bcrt1qfresh"⟩)).isNewAddress =
      true := by
  decide

/-- C9 as amended: in each of the three spend operations no call follows a
`PublishTransaction`; when the operation does not succeed and the failing step
is not `PublishTransaction` itself, `PublishTransaction` was not called at all;
and a successful run ends with an accepted `PublishTransaction`. A fresh address
may have been requested before a failure: `NewAddress` is the first call of the
timeout and cooperative paths, and the second call of the preimage path, made
once `GetVoutAndVerify` has accepted and not made when it rejected. -/
theorem publish_is_last (pk : Packages) (l : Client) (sp : OpeningParams) (cp : ClaimParams)
    (takerSigner : Signer) :
    ((∀ ev ∈ (l.CreatePreimageSpendingTransaction pk sp cp).run.2.dropLast,
        ev.isPublishTransaction = false) ∧
     ((∀ r, (l.CreatePreimageSpendingTransaction pk sp cp).run.1 ≠ .ok r) →
        (∀ tx e, Event.PublishTransaction tx (.error e) ∉
          (l.CreatePreimageSpendingTransaction pk sp cp).run.2) →
        ∀ ev ∈ (l.CreatePreimageSpendingTransaction pk sp cp).run.2,
          ev.isPublishTransaction = false) ∧
     (∀ r, (l.CreatePreimageSpendingTransaction pk sp cp).run.1 = .ok r →
        ∃ tx res, (l.CreatePreimageSpendingTransaction pk sp cp).run.2.getLast? =
          some (Event.PublishTransaction tx (.ok res)))) ∧
    ((∀ ev ∈ (l.CreateCsvSpendingTransaction pk sp cp).run.2.dropLast,
        ev.isPublishTransaction = false) ∧
     ((∀ r, (l.CreateCsvSpendingTransaction pk sp cp).run.1 ≠ .ok r) →
        (∀ tx e, Event.PublishTransaction tx (.error e) ∉
          (l.CreateCsvSpendingTransaction pk sp cp).run.2) →
        ∀ ev ∈ (l.CreateCsvSpendingTransaction pk sp cp).run.2,
          ev.isPublishTransaction = false) ∧
     (∀ r, (l.CreateCsvSpendingTransaction pk sp cp).run.1 = .ok r →
        ∃ tx res, (l.CreateCsvSpendingTransaction pk sp cp).run.2.getLast? =
          some (Event.PublishTransaction tx (.ok res)))) ∧
    ((∀ ev ∈ (l.CreateCoopSpendingTransaction pk sp cp takerSigner).run.2.dropLast,
        ev.isPublishTransaction = false) ∧
     ((∀ r, (l.CreateCoopSpendingTransaction pk sp cp takerSigner).run.1 ≠ .ok r) →
        (∀ tx e, Event.PublishTransaction tx (.error e) ∉
          (l.CreateCoopSpendingTransaction pk sp cp takerSigner).run.2) →
        ∀ ev ∈ (l.CreateCoopSpendingTransaction pk sp cp takerSigner).run.2,
          ev.isPublishTransaction = false) ∧
     (∀ r, (l.CreateCoopSpendingTransaction pk sp cp takerSigner).run.1 = .ok r →
        ∃ tx res, (l.CreateCoopSpendingTransaction pk sp cp takerSigner).run.2.getLast? =
          some (Event.PublishTransaction tx (.ok res)))) ∧
    ((∃ res, (l.CreateCsvSpendingTransaction pk sp cp).run.2.head? =
        some (Event.NewAddress ⟨AddressType.WITNESS_PUBKEY_HASH⟩ res)) ∧
     (∃ res, (l.CreateCoopSpendingTransaction pk sp cp takerSigner).run.2.head? =
        some (Event.NewAddress ⟨AddressType.WITNESS_PUBKEY_HASH⟩ res)) ∧
     (∀ txHex params verified,
        (l.CreatePreimageSpendingTransaction pk sp cp).run.2.head? =
          some (Event.GetVoutAndVerify txHex params (.ok verified)) →
        ∃ res, (l.CreatePreimageSpendingTransaction pk sp cp).run.2.get? 1 =
          some (Event.NewAddress ⟨AddressType.WITNESS_PUBKEY_HASH⟩ res)) ∧
     (∀ txHex params e,
        (l.CreatePreimageSpendingTransaction pk sp cp).run.2.head? =
          some (Event.GetVoutAndVerify txHex params (.error e)) →
        ∀ ev ∈ (l.CreatePreimageSpendingTransaction pk sp cp).run.2,
          ev.isNewAddress = false)) := by
  refine ⟨⟨?_, ?_, ?_⟩, ⟨?_, ?_, ?_⟩, ⟨?_, ?_, ?_⟩, ⟨?_, ?_, ?_, ?_⟩⟩
  all_goals simp only [Client.CreatePreimageSpendingTransaction,
    Client.CreateCsvSpendingTransaction, Client.CreateCoopSpendingTransaction, Exec.run,
    call_bind, step_bind, callPure_bind, setWitness_bind, NewAddress_bind, GetRefundFee_bind,
    pure_apply]
  all_goals repeat' split
  all_goals simp only [List.nil_append, List.cons_append, List.append_assoc, List.dropLast,
    List.forall_mem_cons]
  all_goals simp [Event.isPublishTransaction, Event.isNewAddress]

/-- C9 as amended, on the sample world with a rejecting verifier: the timeout
path fails before `PublishTransaction`, and nothing is published. -/
theorem publish_is_last_witness :
    (∀ r, ((sampleClient false).CreateCsvSpendingTransaction samplePackages
        sampleOpeningParams sampleClaimParams).run.1 ≠ .ok r) ∧
    (∀ tx e, Event.PublishTransaction tx (.error e) ∉
      ((sampleClient false).CreateCsvSpendingTransaction samplePackages sampleOpeningParams
        sampleClaimParams).run.2) ∧
    ∀ ev ∈ ((sampleClient false).CreateCsvSpendingTransaction samplePackages
        sampleOpeningParams sampleClaimParams).run.2, ev.isPublishTransaction = false :=
  have hrun : ((sampleClient false).CreateCsvSpendingTransaction samplePackages
      sampleOpeningParams sampleClaimParams).run =
      (Outcome.err ⟨"tx does not contain expected output"⟩,
       [Event.NewAddress ⟨AddressType.WITNESS_PUBKEY_HASH⟩ (.ok ⟨"bcrt1qfresh"⟩),
        Event.GetVoutAndVerify "0200ab" sampleOpeningParams
          (.error ⟨"tx does not contain expected output"⟩)]) := by decide
  have h1 : ∀ r, ((sampleClient false).CreateCsvSpendingTransaction samplePackages
      sampleOpeningParams sampleClaimParams).run.1 ≠ .ok r := by
    intro r h
    rw [hrun] at h
    cases h
  have h2 : ∀ tx e, Event.PublishTransaction tx (.error e) ∉
      ((sampleClient false).CreateCsvSpendingTransaction samplePackages sampleOpeningParams
        sampleClaimParams).run.2 := by
    intro tx e h
    rw [hrun] at h
    simp at h
  ⟨h1, h2,
   (publish_is_last samplePackages (sampleClient false) sampleOpeningParams sampleClaimParams
      sampleTakerSigner).2.1.2.1 h1 h2⟩

/-! ## The preimage of a preimage spend -/

/-- C1, refuted on the sample world: the committed hash is the SHA-256 of
thirty-two zero bytes, the supplied preimage is thirty-two bytes `0x11`, which
hash to something else, and `CreatePreimageSpendingTransaction` succeeds, having
called `Signer.Sign` and `PublishTransaction`. -/
theorem preimage_mismatch_signed_and_published :
    sha256 (List.replicate 32 0) = sampleOpeningParams.ClaimPaymentHash ∧
    PreimageMismatch samplePackages sampleOpeningParams sampleClaimParams ∧
    returnedSpend ((sampleClient true).CreatePreimageSpendingTransaction samplePackages
        sampleOpeningParams sampleClaimParams).run.1 =
      some ("spendingtxid",
        "0502111111111111111111111111111111111111111111111111111111111111111163", none) ∧
    Event.Sign ⟨"maker"⟩ [170, 187] (.ok ⟨5, 2⟩) ∈
      ((sampleClient true).CreatePreimageSpendingTransaction samplePackages
        sampleOpeningParams sampleClaimParams).run.2 ∧
    Event.PublishTransaction ⟨[5, 2] ++ List.replicate 32 17 ++ [99]⟩ (.ok ⟨""⟩) ∈
      ((sampleClient true).CreatePreimageSpendingTransaction samplePackages
        sampleOpeningParams sampleClaimParams).run.2 :=
  ⟨by decide!, ⟨⟨List.replicate 32 17, by decide⟩, by decide, by decide!⟩, by decide, by decide,
   by decide⟩

/-- C1 as amended: for a preimage that `MakePreimageFromStr` rejects,
`CreatePreimageSpendingTransaction` hands back an error with empty `txId` and
`txHex` and does not call `PublishTransaction`; the preimage is parsed only after
`Signer.Sign`, so when the rejection is the step that failed, its error is the
one handed back and `Signer.Sign` has been called. -/
theorem preimage_parse_failure_not_published (pk : Packages) (l : Client) (sp : OpeningParams)
    (cp : ClaimParams) (e : Error) (hparse : pk.MakePreimageFromStr cp.Preimage = .error e) :
    (∃ e0, returnedSpend (l.CreatePreimageSpendingTransaction pk sp cp).run.1 =
      some ("", "", some e0)) ∧
    (∀ ev ∈ (l.CreatePreimageSpendingTransaction pk sp cp).run.2,
      ev.isPublishTransaction = false) ∧
    (∀ res, Event.MakePreimageFromStr cp.Preimage res ∈
        (l.CreatePreimageSpendingTransaction pk sp cp).run.2 →
      returnedSpend (l.CreatePreimageSpendingTransaction pk sp cp).run.1 =
        some ("", "", some e) ∧
      ∃ ev ∈ (l.CreatePreimageSpendingTransaction pk sp cp).run.2, ev.isSign = true) := by
  refine ⟨?_, ?_, ?_⟩
  all_goals simp only [Client.CreatePreimageSpendingTransaction, Exec.run, call_bind, step_bind,
    callPure_bind, setWitness_bind, NewAddress_bind, pure_apply, hparse]
  all_goals repeat' split
  all_goals simp only [List.nil_append, List.cons_append, List.append_assoc,
    List.forall_mem_cons]
  all_goals simp [returnedSpend, Event.isPublishTransaction, Event.isSign]

/-- C1 as amended, on the sample world: the preimage `xyz` is rejected after the
signature was made, and nothing is published. -/
theorem preimage_parse_failure_not_published_witness :
    samplePackages.MakePreimageFromStr sampleBadClaimParams.Preimage =
      .error (InvalidByteError 120) ∧
    (∀ ev ∈ ((sampleClient true).CreatePreimageSpendingTransaction samplePackages
        sampleOpeningParams sampleBadClaimParams).run.2, ev.isPublishTransaction = false) :=
  ⟨by decide,
   (preimage_parse_failure_not_published samplePackages (sampleClient true) sampleOpeningParams
      sampleBadClaimParams (InvalidByteError 120) (by decide)).2.1⟩

end Peerswap
